import Mathlib

/-!
Formal model of the plotlot core subsystems: the multi-county property
adapter (`build_where_clause`, `_normalize_record`, `bulk_property_search`,
`_safe_filter` from `plotlot/retrieval/bulk_search.py`), the hybrid RRF
search (`plotlot/retrieval/search.py`), and the density calculator
(`plotlot/pipeline/calculator.py`).

Python floats are modelled as exact rationals (ℚ), Python ints as ℤ,
dicts of ArcGIS attributes as association lists over a `Value` type.
Number-to-text rendering (Python `str`/format specifiers) is modelled by
executable formatters over ℚ that agree with CPython on the integral and
short-decimal values exercised here; IEEE-special values (inf/nan) and
numeric-literal underscores are outside the rational model.
-/

namespace Plotlot

/-! ### Python-semantics helpers -/

/-- Round a rational to the nearest integer, ties to even — the rounding used
by Python `round` and by format specifiers such as `:.4f`. -/
def roundHalfEven (q : ℚ) : ℤ :=
  let f := ⌊q⌋
  let frac := q - f
  if frac < 1 / 2 then f
  else if 1 / 2 < frac then f + 1
  else if f % 2 = 0 then f else f + 1

/-- Model of Python `round(x, 1)` over exact rationals. -/
def pyRound1 (q : ℚ) : ℚ := (roundHalfEven (10 * q) : ℚ) / 10

/-- ASCII whitespace as recognized by Python `str.strip` and the regex `\s`. -/
def isPySpace (c : Char) : Bool :=
  c = ' ' || c = '\t' || c = '\n' || c = '\r' || c = '\x0b' || c = '\x0c'

/-- Model of Python `str.lower()` as a structural character map (ASCII). -/
def pyLower (s : String) : String := String.mk (s.data.map Char.toLower)

/-- Model of Python `str.upper()` as a structural character map (ASCII). -/
def pyUpper (s : String) : String := String.mk (s.data.map Char.toUpper)

/-- Model of Python `str.strip()` (whitespace on both ends). -/
def pyStrip (s : String) : String :=
  String.mk (((s.data.dropWhile isPySpace).reverse.dropWhile isPySpace).reverse)

/-- Quote characters stripped by `raw.strip("'\"")` in `_parse_value`. -/
def isQuoteChar (c : Char) : Bool := c = '\'' || c = '"'

/-- Model of Python `s.strip("'\"")`. -/
def stripQuotes (s : String) : String :=
  String.mk (((s.data.dropWhile isQuoteChar).reverse.dropWhile isQuoteChar).reverse)

/-- Numeric value of a list of ASCII digits. -/
def natOfDigits (ds : List Char) : ℕ :=
  ds.foldl (fun a c => 10 * a + (c.toNat - 48)) 0

/-- Exponent part of a float literal: optional sign, then digits. -/
def parseExponent (cs : List Char) : Option ℤ :=
  match cs with
  | [] => none
  | '+' :: ds => if ds ≠ [] ∧ ds.all Char.isDigit then some (natOfDigits ds : ℤ) else none
  | '-' :: ds => if ds ≠ [] ∧ ds.all Char.isDigit then some (-(natOfDigits ds : ℤ)) else none
  | ds => if ds.all Char.isDigit then some (natOfDigits ds : ℤ) else none

/-- Mantissa of a float literal: `digits`, `digits.`, `digits.digits` or
`.digits`; returns its value and the unconsumed remainder. -/
def parseMantissa (cs : List Char) : Option (ℚ × List Char) :=
  let ip := cs.takeWhile Char.isDigit
  let r1 := cs.drop ip.length
  match r1 with
  | '.' :: rest =>
    let fp := rest.takeWhile Char.isDigit
    let r2 := rest.drop fp.length
    if ip = [] ∧ fp = [] then none
    else some ((natOfDigits ip : ℚ) + (natOfDigits fp : ℚ) / 10 ^ fp.length, r2)
  | _ => if ip = [] then none else some ((natOfDigits ip : ℚ), r1)

/-- Model of Python `float(s)`: optional surrounding whitespace, optional
sign, decimal mantissa, optional exponent. -/
def pyFloatParse (s : String) : Option ℚ :=
  match (pyStrip s).data with
  | '+' :: r =>
    match parseMantissa r with
    | none => none
    | some (mant, rest) =>
      match rest with
      | [] => some mant
      | 'e' :: es => (parseExponent es).map (fun e => mant * (10 : ℚ) ^ e)
      | 'E' :: es => (parseExponent es).map (fun e => mant * (10 : ℚ) ^ e)
      | _ => none
  | '-' :: r =>
    match parseMantissa r with
    | none => none
    | some (mant, rest) =>
      match rest with
      | [] => some (-mant)
      | 'e' :: es => (parseExponent es).map (fun e => -(mant * (10 : ℚ) ^ e))
      | 'E' :: es => (parseExponent es).map (fun e => -(mant * (10 : ℚ) ^ e))
      | _ => none
  | r =>
    match parseMantissa r with
    | none => none
    | some (mant, rest) =>
      match rest with
      | [] => some mant
      | 'e' :: es => (parseExponent es).map (fun e => mant * (10 : ℚ) ^ e)
      | 'E' :: es => (parseExponent es).map (fun e => mant * (10 : ℚ) ^ e)
      | _ => none

/-- Decimal text of a rational whose denominator is 1, mirroring Python `str`
on an integer-valued number; other denominators render as a fraction (such
values do not round-trip through CPython float repr, which the rational
model abstracts). -/
def ratRepr (q : ℚ) : String :=
  if q.den = 1 then toString q.num ++ ".0"
  else toString q.num ++ "/" ++ toString q.den

/-- Fixed-point rendering of a rational, mirroring format specifiers such as
`:.4f` (round half to even at `prec` decimals, zero-padded fraction). -/
def fmtFixed (prec : ℕ) (q : ℚ) : String :=
  let scaled := roundHalfEven ((10 : ℚ) ^ prec * q)
  let sign := if scaled < 0 then "-" else ""
  let n := scaled.natAbs
  let ip := n / 10 ^ prec
  let fp := n % 10 ^ prec
  if prec = 0 then sign ++ toString ip
  else
    let fpStr := toString fp
    sign ++ toString ip ++ "." ++
      String.mk (List.replicate (prec - fpStr.length) '0') ++ fpStr

/-- Compact rendering of a rational for interpolated text: integers without a
trailing `.0`, mirroring `:g` on integral values. -/
def fmtNum (q : ℚ) : String :=
  if q.den = 1 then toString q.num else ratRepr q

/-- Scanner for the replace model: substitute every occurrence of `pat`,
left to right. Each step consumes at least one character, so the text length
is structural fuel. -/
def replaceChars (pat rep : List Char) : ℕ → List Char → List Char
  | _, [] => []
  | 0, cs => cs
  | fuel + 1, c :: rest =>
    if pat.isPrefixOf (c :: rest) then
      rep ++ replaceChars pat rep fuel ((c :: rest).drop pat.length)
    else c :: replaceChars pat rep fuel rest

/-- Model of `str.replace(old, new)` for a nonempty pattern (the empty
pattern leaves the text unchanged; the adapter only replaces `"-"` and
`" "`). -/
def pyReplace (s pat rep : String) : String :=
  if pat = "" then s
  else String.mk (replaceChars pat.data rep.data s.data.length s.data)

/-! ### Proleptic-Gregorian date conversions

The models of `datetime.fromisoformat`, `datetime.fromtimestamp(·, utc)` and
`strftime` used by the adapter layer. Days are counted from the Unix epoch
1970-01-01; the conversions below are the standard civil-calendar algorithms
on floor divisions. -/

/-- Convert days since 1970-01-01 to a civil (year, month, day) triple. -/
def civilFromDays (z0 : ℤ) : ℤ × ℤ × ℤ :=
  let z := z0 + 719468
  let era := z / 146097
  let doe := z - era * 146097
  let yoe := (doe - doe / 1460 + doe / 36524 - doe / 146096) / 365
  let y := yoe + era * 400
  let doy := doe - (365 * yoe + yoe / 4 - yoe / 100)
  let mp := (5 * doy + 2) / 153
  let d := doy - (153 * mp + 2) / 5 + 1
  let m := mp + (if mp < 10 then 3 else -9)
  (y + (if m ≤ 2 then 1 else 0), m, d)

/-- Convert a civil (year, month, day) triple to days since 1970-01-01. -/
def daysFromCivil (y0 m d : ℤ) : ℤ :=
  let y := y0 - (if m ≤ 2 then 1 else 0)
  let era := y / 400
  let yoe := y - era * 400
  let mp := (m + 9) % 12
  let doy := (153 * mp + 2) / 5 + d - 1
  let doe := yoe * 365 + yoe / 4 - yoe / 100 + doy
  era * 146097 + doe - 719468

/-- Zero-pad a numeral string on the left to width `w`. -/
def padZeros (w : ℕ) (s : String) : String :=
  String.mk (List.replicate (w - s.length) '0') ++ s

/-- Model of `strftime("%Y-%m-%d")` on a civil date. -/
def fmtDateIso (y m d : ℤ) : String :=
  padZeros 4 (toString y) ++ "-" ++ padZeros 2 (toString m) ++ "-" ++ padZeros 2 (toString d)

/-- Model of `strftime("%Y%m%d")` on a civil date. -/
def fmtDateCompact (y m d : ℤ) : String :=
  padZeros 4 (toString y) ++ padZeros 2 (toString m) ++ padZeros 2 (toString d)

/-- Gregorian leap-year test. -/
def isLeapYear (y : ℤ) : Bool :=
  (y % 4 = 0 && y % 100 ≠ 0) || y % 400 = 0

/-- Number of days in a civil month. -/
def daysInMonth (y m : ℤ) : ℤ :=
  if m = 2 then (if isLeapYear y then 29 else 28)
  else if m = 4 ∨ m = 6 ∨ m = 9 ∨ m = 11 then 30
  else 31

/-- Model of `datetime.fromisoformat` on the dashed date-only form
`YYYY-MM-DD` (the only form the adapter receives); invalid text or an
out-of-range date yields `none`, modelling the raised `ValueError`. -/
def parseIsoDate (s : String) : Option (ℤ × ℤ × ℤ) :=
  match s.data with
  | [y1, y2, y3, y4, '-', m1, m2, '-', d1, d2] =>
    if (y1.isDigit && y2.isDigit && y3.isDigit && y4.isDigit &&
        m1.isDigit && m2.isDigit && d1.isDigit && d2.isDigit) then
      let y : ℤ := (natOfDigits [y1, y2, y3, y4] : ℤ)
      let m : ℤ := (natOfDigits [m1, m2] : ℤ)
      let d : ℤ := (natOfDigits [d1, d2] : ℤ)
      if 1 ≤ y ∧ 1 ≤ m ∧ m ≤ 12 ∧ 1 ≤ d ∧ d ≤ daysInMonth y m then some (y, m, d)
      else none
    else none
  | _ => none

/-- Model of `datetime.fromtimestamp(ms / 1000, tz=timezone.utc).strftime("%Y-%m-%d")`:
the UTC civil date of an epoch-milliseconds stamp, `none` when the stamp is
outside datetime's year range 1..9999 (the except branch of the caller). -/
def epochMsToIsoDate (ms : ℚ) : Option String :=
  match civilFromDays ⌊ms / 1000 / 86400⌋ with
  | (y, m, d) => if 1 ≤ y ∧ y ≤ 9999 then some (fmtDateIso y m d) else none

/-! ### Attribute values

ArcGIS attribute maps hold strings, numbers or nulls; a record (dict) is an
association list from field name to value. -/

/-- A Python value as it appears in a raw attribute map or a filter. -/
inductive Value where
  | str : String → Value
  | num : ℚ → Value
  | null : Value
  deriving DecidableEq

/-- An attribute map (Python dict with string keys). -/
abbrev AttrMap := List (String × Value)

/-- Model of Python `str(v)` on an attribute value. -/
def pyStr : Value → String
  | .str s => s
  | .num q => ratRepr q
  | .null => "None"

/-- Model of Python truthiness on an attribute value. -/
def pyTruthy : Value → Bool
  | .str s => s ≠ ""
  | .num q => q ≠ 0
  | .null => false

/-- Model of `_safe_float` from `plotlot/retrieval/property.py`: convert a
value to a float, stripping currency symbols and commas; `None`, empty or
unparseable text yields `0.0`. -/
def safe_float (v : Option Value) : ℚ :=
  match v with
  | none => 0
  | some .null => 0
  | some (.num q) => q
  | some (.str s) =>
    let s' := pyStrip (String.mk (s.data.filter (fun c => c ≠ '$' ∧ c ≠ ',')))
    if s' = "" then 0 else (pyFloatParse s').getD 0

/-! ### Density calculator (`plotlot/pipeline/calculator.py`)

Pure functions: lot geometry plus extracted numeric zoning parameters give a
`DensityAnalysis` with a constraint breakdown. -/

/-- Square feet per acre, the module constant `SQFT_PER_ACRE`. -/
def SQFT_PER_ACRE : ℚ := 43560

/-- Numeric values extracted from ordinance text; `none` means not found. -/
structure NumericZoningParams where
  max_density_units_per_acre : Option ℚ := none
  min_lot_area_per_unit_sqft : Option ℚ := none
  far : Option ℚ := none
  max_lot_coverage_pct : Option ℚ := none
  max_height_ft : Option ℚ := none
  max_stories : Option ℤ := none
  setback_front_ft : Option ℚ := none
  setback_side_ft : Option ℚ := none
  setback_rear_ft : Option ℚ := none
  min_unit_size_sqft : Option ℚ := none
  min_lot_width_ft : Option ℚ := none
  parking_spaces_per_unit : Option ℚ := none
  deriving DecidableEq

/-- One constraint's contribution to the max-units calculation. -/
structure ConstraintResult where
  name : String
  max_units : ℤ
  raw_value : ℚ
  formula : String
  is_governing : Bool := false
  deriving DecidableEq

/-- Max allowable units on a lot, with full constraint breakdown. -/
structure DensityAnalysis where
  max_units : ℤ
  governing_constraint : String
  constraints : List ConstraintResult
  lot_size_sqft : ℚ := 0
  buildable_area_sqft : Option ℚ := none
  lot_width_ft : Option ℚ := none
  lot_depth_ft : Option ℚ := none
  confidence : String := "low"
  notes : List String := []
  deriving DecidableEq

/-- Model of `_calc_buildable_area`: the buildable area left after setbacks,
together with the notes the call appends. `none` when width or depth is
missing or nonpositive; `some 0` (plus a note) when the setbacks exceed the
lot dimensions. -/
def calc_buildable_area (lot_width_ft lot_depth_ft : Option ℚ)
    (params : NumericZoningParams) : Option ℚ × List String :=
  match lot_width_ft, lot_depth_ft with
  | some w, some d =>
    if w ≤ 0 ∨ d ≤ 0 then (none, [])
    else
      let front := params.setback_front_ft.getD 0
      let rear := params.setback_rear_ft.getD 0
      let side := params.setback_side_ft.getD 0
      let buildable_width := w - 2 * side
      let buildable_depth := d - front - rear
      if buildable_width ≤ 0 ∨ buildable_depth ≤ 0 then
        (some 0,
          ["Setbacks (" ++ fmtNum front ++ "' front, " ++ fmtNum rear ++ "' rear, " ++
            fmtNum side ++ "' each side) exceed lot dimensions (" ++ fmtNum w ++ "' x " ++
            fmtNum d ++ "')."])
      else (some (buildable_width * buildable_depth), [])
  | _, _ => (none, [])

/-- Constraint 1 of `calculate_max_units`: density in units per acre. -/
def densityConstraint (lot_size_sqft : ℚ) (params : NumericZoningParams) :
    List ConstraintResult :=
  match params.max_density_units_per_acre with
  | some dpa =>
    if dpa > 0 then
      let lot_acres := lot_size_sqft / SQFT_PER_ACRE
      let raw := dpa * lot_acres
      [{ name := "density", max_units := max 1 ⌊raw⌋, raw_value := raw,
         formula := fmtNum dpa ++ " units/acre x " ++ fmtFixed 4 lot_acres ++
           " acres = " ++ fmtFixed 2 raw }]
    else []
  | none => []

/-- Constraint 2 of `calculate_max_units`: minimum lot area per unit. -/
def minLotAreaConstraint (lot_size_sqft : ℚ) (params : NumericZoningParams) :
    List ConstraintResult :=
  match params.min_lot_area_per_unit_sqft with
  | some mla =>
    if mla > 0 then
      let raw := lot_size_sqft / mla
      [{ name := "min_lot_area", max_units := max 1 ⌊raw⌋, raw_value := raw,
         formula := fmtFixed 0 lot_size_sqft ++ " sqft / " ++ fmtFixed 0 mla ++
           " sqft/unit = " ++ fmtFixed 2 raw }]
    else []
  | none => []

/-- Constraint 3 of `calculate_max_units`: floor area ratio. -/
def farConstraint (lot_size_sqft : ℚ) (params : NumericZoningParams) :
    List ConstraintResult :=
  match params.far, params.min_unit_size_sqft with
  | some far, some mus =>
    if far > 0 ∧ mus > 0 then
      let max_building_sqft := far * lot_size_sqft
      let raw := max_building_sqft / mus
      [{ name := "floor_area_ratio", max_units := max 1 ⌊raw⌋, raw_value := raw,
         formula := "FAR " ++ fmtNum far ++ " x " ++ fmtFixed 0 lot_size_sqft ++
           " sqft = " ++ fmtFixed 0 max_building_sqft ++ " sqft / " ++ fmtFixed 0 mus ++
           " sqft/unit = " ++ fmtFixed 2 raw }]
    else []
  | _, _ => []

/-- Number of stories used by the buildable-envelope constraint:
`params.max_stories if params.max_stories and params.max_stories > 0 else 1`. -/
def envelopeStories (params : NumericZoningParams) : ℤ :=
  match params.max_stories with
  | some s => if s > 0 then s else 1
  | none => 1

/-- Constraint 4 of `calculate_max_units`: buildable envelope, evaluated on
the already-computed buildable area. -/
def envelopeConstraint (buildable_sqft : Option ℚ) (params : NumericZoningParams) :
    List ConstraintResult :=
  match buildable_sqft, params.min_unit_size_sqft with
  | some b, some mus =>
    if b > 0 ∧ mus > 0 then
      let stories := envelopeStories params
      let total_floor_area := b * (stories : ℚ)
      let raw := total_floor_area / mus
      [{ name := "buildable_envelope", max_units := max 1 ⌊raw⌋, raw_value := raw,
         formula := "(" ++ fmtFixed 0 b ++ " sqft buildable x " ++ toString stories ++
           " stories) / " ++ fmtFixed 0 mus ++ " sqft/unit = " ++ fmtFixed 2 raw }]
    else []
  | _, _ => []

/-- The constraint list of `calculate_max_units`, in evaluation order. -/
def evalConstraints (lot_size_sqft : ℚ) (params : NumericZoningParams)
    (lot_width_ft lot_depth_ft : Option ℚ) : List ConstraintResult :=
  densityConstraint lot_size_sqft params ++
  minLotAreaConstraint lot_size_sqft params ++
  farConstraint lot_size_sqft params ++
  envelopeConstraint (calc_buildable_area lot_width_ft lot_depth_ft params).1 params

/-- Index of the first constraint with minimal `max_units`, the element
Python `min(constraints, key=lambda c: c.max_units)` returns. -/
def firstMinIdx : List ConstraintResult → ℕ
  | [] => 0
  | c :: rest =>
    if rest.all (fun x => c.max_units ≤ x.max_units) then 0 else firstMinIdx rest + 1

/-- Set `is_governing := true` on the element at index `n`, the effect of the
mutation `governing.is_governing = True` on the shared list element. -/
def markAt : ℕ → List ConstraintResult → List ConstraintResult
  | _, [] => []
  | 0, c :: rest => { c with is_governing := true } :: rest
  | n + 1, c :: rest => c :: markAt n rest

/-- Confidence ladder of `calculate_max_units`. -/
def confidenceOf (n : ℕ) : String :=
  if n ≥ 3 then "high" else if n = 2 then "medium" else "low"

/-- Model of `calculate_max_units` from `plotlot/pipeline/calculator.py`. -/
def calculate_max_units (lot_size_sqft : ℚ) (params : NumericZoningParams)
    (lot_width_ft : Option ℚ := none) (lot_depth_ft : Option ℚ := none) :
    DensityAnalysis :=
  if lot_size_sqft ≤ 0 then
    { max_units := 0, governing_constraint := "no_lot_data", constraints := [],
      lot_size_sqft := lot_size_sqft,
      notes := ["Lot size is zero or negative — cannot calculate."] }
  else
    let ba := calc_buildable_area lot_width_ft lot_depth_ft params
    let buildable_sqft := ba.1
    let bnotes := ba.2
    match evalConstraints lot_size_sqft params lot_width_ft lot_depth_ft with
    | [] =>
      { max_units := 0, governing_constraint := "insufficient_data", constraints := [],
        lot_size_sqft := lot_size_sqft, buildable_area_sqft := buildable_sqft,
        lot_width_ft := lot_width_ft, lot_depth_ft := lot_depth_ft,
        confidence := "low",
        notes := bnotes ++ ["No numeric zoning parameters available for calculation."] }
    | c0 :: rest =>
      let constraints := c0 :: rest
      let idx := firstMinIdx constraints
      let governing := constraints.getD idx c0
      { max_units := governing.max_units, governing_constraint := governing.name,
        constraints := markAt idx constraints,
        lot_size_sqft := lot_size_sqft, buildable_area_sqft := buildable_sqft,
        lot_width_ft := lot_width_ft, lot_depth_ft := lot_depth_ft,
        confidence := confidenceOf constraints.length,
        notes := bnotes }

/-! ### County field maps (`plotlot/retrieval/bulk_search.py`) -/

/-- Maps abstract property fields to county-specific ArcGIS field names. -/
structure CountyFieldMap where
  county_name : String
  url : String
  land_use_code : String
  owner_name : String
  sale_date : String
  sale_date_format : String
  sale_price : String
  lot_size : String
  lot_size_unit : String
  address : String
  city : String
  assessed_value : String
  year_built : String
  folio : String
  out_fields : String
  needs_order_by : Bool := false
  order_by_field : Option String := none
  deriving DecidableEq

/-- The Miami-Dade field map `MDC_FIELDS`. -/
def MDC_FIELDS : CountyFieldMap where
  county_name := "Miami-Dade"
  url := "https://services.arcgis.com/8Pc9XBTAsYuxx9Ny/ArcGIS/rest/services/PaGISView_gdb/FeatureServer/0/query"
  land_use_code := "DOR_CODE_CUR"
  owner_name := "TRUE_OWNER1"
  sale_date := "DOS_1"
  sale_date_format := "string_mmddyyyy"
  sale_price := "PRICE_1"
  lot_size := "LOT_SIZE"
  lot_size_unit := "sqft"
  address := "TRUE_SITE_ADDR"
  city := "TRUE_SITE_CITY"
  assessed_value := "ASSESSED_VAL_CUR"
  year_built := "YEAR_BUILT"
  folio := "FOLIO"
  out_fields := "FOLIO,TRUE_SITE_ADDR,TRUE_SITE_CITY,TRUE_OWNER1,DOR_CODE_CUR,DOR_DESC,LOT_SIZE,YEAR_BUILT,ASSESSED_VAL_CUR,PRICE_1,DOS_1"

/-- The Broward field map `BROWARD_FIELDS`. -/
def BROWARD_FIELDS : CountyFieldMap where
  county_name := "Broward"
  url := "https://gisweb-adapters.bcpa.net/arcgis/rest/services/BCPA_EXTERNAL_JAN26/MapServer/36/query"
  land_use_code := "USE_CODE"
  owner_name := "NAME_LINE_1"
  sale_date := ""
  sale_date_format := "none"
  sale_price := ""
  lot_size := ""
  lot_size_unit := "none"
  address := "SITUS_STREET_NUMBER"
  city := "SITUS_CITY"
  assessed_value := "JUST_BUILDING_VALUE"
  year_built := "BLDG_YEAR_BUILT"
  folio := "FOLIO_NUMBER"
  out_fields := "FOLIO_NUMBER,SITUS_STREET_NUMBER,SITUS_STREET_DIRECTION,SITUS_STREET_NAME,SITUS_STREET_TYPE,SITUS_CITY,NAME_LINE_1,USE_CODE,BLDG_YEAR_BUILT,JUST_BUILDING_VALUE"
  needs_order_by := true
  order_by_field := some "FOLIO_NUMBER"

/-- The Palm Beach field map `PBC_FIELDS`. -/
def PBC_FIELDS : CountyFieldMap where
  county_name := "Palm Beach"
  url := "https://services1.arcgis.com/ZWOoUZbtaYePLlPw/arcgis/rest/services/Parcels_and_Property_Details_WebMercator/FeatureServer/0/query"
  land_use_code := "PROPERTY_USE"
  owner_name := "OWNER_NAME1"
  sale_date := "SALE_DATE"
  sale_date_format := "epoch_ms"
  sale_price := "PRICE"
  lot_size := "ACRES"
  lot_size_unit := "acres"
  address := "SITE_ADDR_STR"
  city := "MUNICIPALITY"
  assessed_value := "ASSESSED_VAL"
  year_built := "YRBLT"
  folio := "PARCEL_NUMBER"
  out_fields := "PARCEL_NUMBER,SITE_ADDR_STR,MUNICIPALITY,OWNER_NAME1,PROPERTY_USE,YRBLT,ACRES,ASSESSED_VAL,PRICE,SALE_DATE"

/-- The `_COUNTY_MAP` lookup table from normalized county key to field map. -/
def COUNTY_MAP : List (String × CountyFieldMap) :=
  [("miami-dade", MDC_FIELDS),
   ("miami dade", MDC_FIELDS),
   ("broward", BROWARD_FIELDS),
   ("palm beach", PBC_FIELDS)]

/-- The `BROWARD_CITY_CODES` table: Broward stores 2-letter city codes in
`SITUS_CITY` instead of full names. -/
def BROWARD_CITY_CODES : List (String × String) :=
  [("coconut creek", "CK"), ("cooper city", "CY"), ("coral springs", "CS"),
   ("dania beach", "DN"), ("dania", "DN"), ("davie", "DV"),
   ("deerfield beach", "DB"), ("fort lauderdale", "FL"),
   ("hallandale beach", "HA"), ("hallandale", "HA"), ("hillsboro beach", "HB"),
   ("hollywood", "HW"), ("lauderdale lakes", "LP"), ("lauderdale-by-the-sea", "LS"),
   ("lauderhill", "LL"), ("lazy lake", "LZ"), ("lighthouse point", "LH"),
   ("margate", "MG"), ("miramar", "MM"), ("north lauderdale", "NL"),
   ("oakland park", "OP"), ("parkland", "PK"), ("pembroke park", "PI"),
   ("pembroke pines", "PB"), ("plantation", "PL"), ("pompano beach", "PA"),
   ("sea ranch lakes", "SL"), ("southwest ranches", "SW"), ("sunrise", "SU"),
   ("tamarac", "TM"), ("west park", "WP"), ("weston", "WM"), ("wilton manors", "WS")]

/-- The `LAND_USE_CODES` table: FL DOR land-use codes per county key. -/
def LAND_USE_CODES : List (String × List (String × List String)) :=
  [("miami-dade",
    [("vacant_residential", ["0000"]), ("vacant_commercial", ["0100"]),
     ("single_family", ["0101", "0102"]),
     ("multifamily", ["0104", "0800", "0801", "0802", "0803", "0804"]),
     ("commercial", ["1100", "1200", "1300", "1400", "1500", "1600", "1700"]),
     ("industrial", ["4100", "4200", "4800", "4900"]),
     ("agricultural", ["5000", "5100", "5400", "5500", "5600", "5700", "5800", "5900", "6000"])]),
   ("broward",
    [("vacant_residential", ["00"]), ("vacant_commercial", ["10"]),
     ("single_family", ["01"]), ("multifamily", ["03", "04", "08"]),
     ("commercial", ["11", "12", "13", "14", "15", "16", "17"]),
     ("industrial", ["41", "42", "48", "49"]),
     ("agricultural", ["50", "51", "54", "55", "56", "57", "58", "59", "60"])]),
   ("palm beach",
    [("vacant_residential", ["00"]), ("vacant_commercial", ["10"]),
     ("single_family", ["01", "02"]), ("multifamily", ["03", "04", "08"]),
     ("commercial", ["11", "12", "13", "14", "15", "16", "17"]),
     ("industrial", ["41", "42", "48", "49"]),
     ("agricultural", ["50", "51", "54", "55", "56", "57", "58", "59", "60"])])]

/-- Structured search criteria (`PropertySearchParams`). -/
structure PropertySearchParams where
  county : String
  land_use_type : Option String := none
  city : Option String := none
  max_sale_date : Option String := none
  min_lot_size_sqft : Option ℚ := none
  max_lot_size_sqft : Option ℚ := none
  min_sale_price : Option ℚ := none
  max_sale_price : Option ℚ := none
  min_assessed_value : Option ℚ := none
  max_assessed_value : Option ℚ := none
  year_built_before : Option ℤ := none
  year_built_after : Option ℤ := none
  owner_name_contains : Option String := none
  max_results : ℤ := 500
  deriving DecidableEq

/-- Model of `_get_field_map`: resolve a county name (lowercased, stripped)
through `_COUNTY_MAP`, raising `ValueError` for an unsupported county. -/
def get_field_map (county : String) : Except String CountyFieldMap :=
  match COUNTY_MAP.lookup (pyStrip (pyLower county)) with
  | some fm => .ok fm
  | none =>
    .error ("Unsupported county: " ++ county ++ ". Supported: Miami-Dade, Broward, Palm Beach")

/-- Python truthiness of an optional string (`None` and `""` are falsy). -/
def optStrTruthy : Option String → Bool
  | none => false
  | some s => s ≠ ""

/-- Model of `build_where_clause`: translate structured search params into a
county-specific ArcGIS WHERE clause; errors from `_get_field_map` and from
`datetime.fromisoformat` propagate. -/
def build_where_clause (params : PropertySearchParams) :
    Except String (String × CountyFieldMap) := do
  let fm ← get_field_map params.county
  let ck0 := pyReplace (pyReplace (pyLower fm.county_name) "-" " ") " " "-"
  let county_key := if ck0 = "miami dade" then "miami-dade" else ck0
  let c1 : List String :=
    match params.land_use_type with
    | some lut =>
      if lut ≠ "" then
        let county_codes := (LAND_USE_CODES.lookup county_key).getD []
        let codes := (county_codes.lookup lut).getD []
        match codes with
        | [] => []
        | [c] => [fm.land_use_code ++ "='" ++ c ++ "'"]
        | cs => [fm.land_use_code ++ " IN (" ++
            String.intercalate "," (cs.map (fun c => "'" ++ c ++ "'")) ++ ")"]
      else []
    | none => []
  let c2 : List String :=
    match params.city with
    | some city =>
      if city ≠ "" then
        if fm.county_name = "Broward" then
          match BROWARD_CITY_CODES.lookup (pyStrip (pyLower city)) with
          | some code => [fm.city ++ "='" ++ code ++ "'"]
          | none => [fm.city ++ "='" ++ pyStrip (pyUpper city) ++ "'"]
        else [fm.city ++ "='" ++ pyStrip (pyUpper city) ++ "'"]
      else []
    | none => []
  let c3 ←
    match params.max_sale_date with
    | some msd =>
      if msd ≠ "" ∧ fm.sale_date ≠ "" then
        if fm.sale_date_format = "string_mmddyyyy" then
          match parseIsoDate msd with
          | some (y, m, d) =>
            pure [fm.sale_date ++ "<'" ++ fmtDateCompact y m d ++ "'"]
          | none => Except.error ("Invalid isoformat string: " ++ msd)
        else if fm.sale_date_format = "epoch_ms" then
          match parseIsoDate msd with
          | some (y, m, d) =>
            pure [fm.sale_date ++ "<" ++ toString (daysFromCivil y m d * 86400000)]
          | none => Except.error ("Invalid isoformat string: " ++ msd)
        else pure []
      else pure []
    | none => pure []
  let c4 : List String :=
    match params.min_lot_size_sqft with
    | some v =>
      if fm.lot_size ≠ "" then
        if fm.lot_size_unit = "acres" then [fm.lot_size ++ ">=" ++ fmtFixed 4 (v / 43560)]
        else [fm.lot_size ++ ">=" ++ fmtNum v]
      else []
    | none => []
  let c5 : List String :=
    match params.max_lot_size_sqft with
    | some v =>
      if fm.lot_size ≠ "" then
        if fm.lot_size_unit = "acres" then [fm.lot_size ++ "<=" ++ fmtFixed 4 (v / 43560)]
        else [fm.lot_size ++ "<=" ++ fmtNum v]
      else []
    | none => []
  let c6 : List String :=
    match params.min_sale_price with
    | some v => if fm.sale_price ≠ "" then [fm.sale_price ++ ">=" ++ fmtNum v] else []
    | none => []
  let c7 : List String :=
    match params.max_sale_price with
    | some v => if fm.sale_price ≠ "" then [fm.sale_price ++ "<=" ++ fmtNum v] else []
    | none => []
  let c8 : List String :=
    match params.min_assessed_value with
    | some v => if fm.assessed_value ≠ "" then [fm.assessed_value ++ ">=" ++ fmtNum v] else []
    | none => []
  let c9 : List String :=
    match params.max_assessed_value with
    | some v => if fm.assessed_value ≠ "" then [fm.assessed_value ++ "<=" ++ fmtNum v] else []
    | none => []
  let c10 : List String :=
    match params.year_built_before with
    | some v => if fm.year_built ≠ "" then [fm.year_built ++ "<" ++ toString v] else []
    | none => []
  let c11 : List String :=
    match params.year_built_after with
    | some v => if fm.year_built ≠ "" then [fm.year_built ++ ">" ++ toString v] else []
    | none => []
  let c12 : List String :=
    match params.owner_name_contains with
    | some v =>
      if v ≠ "" ∧ fm.owner_name ≠ "" then
        [fm.owner_name ++ " LIKE '%" ++ pyStrip (pyUpper v) ++ "%'"]
      else []
    | none => []
  let conditions := c1 ++ c2 ++ c3 ++ c4 ++ c5 ++ c6 ++ c7 ++ c8 ++ c9 ++ c10 ++ c11 ++ c12
  let whereClause := if conditions = [] then "1=1" else String.intercalate " AND " conditions
  pure (whereClause, fm)

/-! ### Record normalization (`_normalize_record`) -/

/-- Model of Python `str.title()` (ASCII letters). -/
def titleCaseGo : Bool → List Char → List Char
  | _, [] => []
  | prevAlpha, c :: rest =>
    (if c.isAlpha then (if prevAlpha then c.toLower else c.toUpper) else c) ::
      titleCaseGo c.isAlpha rest

/-- Model of Python `str.title()`. -/
def titleCase (s : String) : String := String.mk (titleCaseGo false s.data)

/-- Update of an association list at a key, keeping insertion order —
the effect of assigning to a Python dict key. -/
def dictInsert (m : List (String × String)) (k v : String) : List (String × String) :=
  if (m.lookup k).isSome then m.map (fun p => if p.1 = k then (k, v) else p)
  else m ++ [(k, v)]

/-- The reverse `_BROWARD_CODE_TO_CITY` map, built as the dict comprehension
`{v: k.title() for k, v in BROWARD_CITY_CODES.items()}` (later duplicate
codes overwrite earlier ones). -/
def BROWARD_CODE_TO_CITY : List (String × String) :=
  BROWARD_CITY_CODES.foldl (fun acc p => dictInsert acc p.2 (titleCase p.1)) []

/-- Model of `str(attrs.get(k) or "")`: the value's text when truthy, else
the empty string. -/
def pyStrOfGet (attrs : AttrMap) (k : String) : String :=
  match attrs.lookup k with
  | none => ""
  | some v => if pyTruthy v then pyStr v else ""

/-- A normalized property record: the dict `_normalize_record` returns, with
its fixed key set as named fields. -/
structure NormalizedRecord where
  folio : String
  address : String
  city : String
  county : String
  owner : String
  land_use_code : String
  lot_size_sqft : ℚ
  year_built : ℤ
  assessed_value : ℚ
  last_sale_price : ℚ
  last_sale_date : String
  lat : Option ℚ
  lng : Option ℚ
  deriving DecidableEq

/-- Model of Python `int(v)` as used on the year-built attribute: numbers
truncate toward zero, digit strings (with optional sign) parse, everything
else fails. -/
def pyInt (v : Value) : Option ℤ :=
  match v with
  | .num q => some (if 0 ≤ q then ⌊q⌋ else ⌈q⌉)
  | .str s =>
    match (pyStrip s).data with
    | [] => none
    | '-' :: ds => if ds ≠ [] ∧ ds.all Char.isDigit then some (-(natOfDigits ds : ℤ)) else none
    | '+' :: ds => if ds ≠ [] ∧ ds.all Char.isDigit then some (natOfDigits ds : ℤ) else none
    | ds => if ds.all Char.isDigit then some (natOfDigits ds : ℤ) else none
  | .null => none

/-- Model of `_normalize_record`: normalize county-specific ArcGIS attributes
into the standard record shape. -/
def normalize_record (attrs : AttrMap) (geometry : Option (ℚ × ℚ))
    (fm : CountyFieldMap) : NormalizedRecord :=
  let address :=
    if fm.county_name = "Broward" then
      let addr_parts := [pyStrOfGet attrs "SITUS_STREET_NUMBER",
                         pyStrOfGet attrs "SITUS_STREET_DIRECTION",
                         pyStrOfGet attrs "SITUS_STREET_NAME",
                         pyStrOfGet attrs "SITUS_STREET_TYPE"]
      pyStrip (String.intercalate " " (addr_parts.filter (fun p => p ≠ "")))
    else pyStrOfGet attrs fm.address
  let raw_lot := if fm.lot_size ≠ "" then safe_float (attrs.lookup fm.lot_size) else 0
  let lot_sqft := if fm.lot_size_unit = "acres" ∧ raw_lot > 0 then raw_lot * 43560 else raw_lot
  let sale_date :=
    if fm.sale_date ≠ "" then
      match attrs.lookup fm.sale_date with
      | none => ""
      | some raw =>
        if pyTruthy raw then
          match raw with
          | .num q =>
            if fm.sale_date_format = "epoch_ms" ∧ q > 0 then
              (epochMsToIsoDate q).getD (pyStr raw)
            else pyStr raw
          | _ => pyStr raw
        else ""
    else ""
  let year_built :=
    if fm.year_built ≠ "" then
      match attrs.lookup fm.year_built with
      | none => 0
      | some raw => (pyInt raw).getD 0
    else 0
  let cityRaw := pyStrOfGet attrs fm.city
  let city :=
    if fm.county_name = "Broward" then (BROWARD_CODE_TO_CITY.lookup cityRaw).getD cityRaw
    else cityRaw
  { folio := pyStrOfGet attrs fm.folio
    address := address
    city := city
    county := fm.county_name
    owner := pyStrOfGet attrs fm.owner_name
    land_use_code := pyStrOfGet attrs fm.land_use_code
    lot_size_sqft := pyRound1 lot_sqft
    year_built := year_built
    assessed_value := if fm.assessed_value ≠ "" then safe_float (attrs.lookup fm.assessed_value) else 0
    last_sale_price := if fm.sale_price ≠ "" then safe_float (attrs.lookup fm.sale_price) else 0
    last_sale_date := sale_date
    lat := geometry.map (fun g => g.2)
    lng := geometry.map (fun g => g.1) }

/-! ### Paginated bulk search (`bulk_property_search`)

The ArcGIS page query `_query_arcgis` is external I/O; it is abstracted as a
function from (result offset, requested record count) to either a feature
page or a raised exception. -/

/-- One raw ArcGIS feature: an attribute map and optional point geometry. -/
structure Feature where
  attributes : AttrMap
  geometry : Option (ℚ × ℚ)

/-- A page query: `_query_arcgis` at a fixed URL/WHERE/out-fields, seen as a
map from `resultOffset` and `resultRecordCount` to a page or an exception. -/
abbrev PageQuery := ℕ → ℤ → Except String (List Feature)

/-- Model of the pagination loop of `bulk_property_search`: accumulate
normalized records page by page until the cap is reached, a short or empty
page signals the end of data, or a query raises (partial results kept). -/
def bulkLoopFuel (query : PageQuery) (fm : CountyFieldMap) (maxResults : ℤ) :
    ℕ → List NormalizedRecord → ℕ → List NormalizedRecord
  | 0, acc, _ => acc
  | fuel + 1, acc, offset =>
    if (acc.length : ℤ) < maxResults then
      match query offset (min 1000 (maxResults - acc.length)) with
      | .error _ => acc
      | .ok [] => acc
      | .ok (f0 :: frest) =>
        if ((acc ++ ((f0 :: frest).take (maxResults - acc.length).toNat).map
            (fun f => normalize_record f.attributes f.geometry fm)).length : ℤ) ≥ maxResults then
          acc ++ ((f0 :: frest).take (maxResults - acc.length).toNat).map
            (fun f => normalize_record f.attributes f.geometry fm)
        else if ((f0 :: frest).length : ℤ) < min 1000 (maxResults - acc.length) then
          acc ++ ((f0 :: frest).take (maxResults - acc.length).toNat).map
            (fun f => normalize_record f.attributes f.geometry fm)
        else
          bulkLoopFuel query fm maxResults fuel
            (acc ++ ((f0 :: frest).take (maxResults - acc.length).toNat).map
              (fun f => normalize_record f.attributes f.geometry fm))
            (offset + (f0 :: frest).length)
    else acc

/-- The pagination loop of `bulk_property_search` from a given accumulator
and offset. Every iteration of the Python `while` loop appends at least one
record while the accumulator is below the cap, so the remaining capacity
`(maxResults - len(acc)).toNat` bounds the iteration count and serves as the
structural fuel; when it is zero the loop guard is false and the fuel-zero
branch coincides with the loop's exit. -/
def bulkLoop (query : PageQuery) (fm : CountyFieldMap) (maxResults : ℤ)
    (acc : List NormalizedRecord) (offset : ℕ) : List NormalizedRecord :=
  bulkLoopFuel query fm maxResults (maxResults - acc.length).toNat acc offset

/-- Model of `bulk_property_search`: build the WHERE clause (errors from it
propagate) and run the pagination loop from an empty accumulator. -/
def bulk_property_search (params : PropertySearchParams) (query : PageQuery) :
    Except String (List NormalizedRecord) :=
  match build_where_clause params with
  | .error e => .error e
  | .ok (_, fm) => .ok (bulkLoop query fm (min params.max_results 2000) [] 0)

/-! ### Safe filter parser (`_safe_filter`)

The regex `(\w+)\s*(==|!=|>=|<=|>|<|contains)\s*(.+)` is modelled with its
backtracking semantics: the greedy `\w+` gives back characters until an
operator of the alternation (tried left to right) is followed by a
matchable `\s*(.+)` (`.` does not match a newline). -/

/-- Word characters of the regex `\w` (ASCII). -/
def isWordChar (c : Char) : Bool := c.isAlphanum || c = '_'

/-- A filter operator recognized by `_FILTER_PATTERN`. -/
inductive FilterOp where
  | opEq | opNe | opGe | opLe | opGt | opLt | opContains
  deriving DecidableEq

/-- The operator alternation `==|!=|>=|<=|>|<|contains` (case-insensitive) at
the head of the text, every alternative in order with its remainder. -/
def opCandidates (cs : List Char) : List (FilterOp × List Char) :=
  (match cs with | '=' :: '=' :: r => [(FilterOp.opEq, r)] | _ => []) ++
  (match cs with | '!' :: '=' :: r => [(FilterOp.opNe, r)] | _ => []) ++
  (match cs with | '>' :: '=' :: r => [(FilterOp.opGe, r)] | _ => []) ++
  (match cs with | '<' :: '=' :: r => [(FilterOp.opLe, r)] | _ => []) ++
  (match cs with | '>' :: r => [(FilterOp.opGt, r)] | _ => []) ++
  (match cs with | '<' :: r => [(FilterOp.opLt, r)] | _ => []) ++
  (if (cs.take 8).map Char.toLower = "contains".data
   then [(FilterOp.opContains, cs.drop 8)] else [])

/-- Match `\s*(.+)` against the text with the regex's greedy backtracking;
the group is the longest newline-free run after the shortest viable
whitespace give-back. -/
def matchValuePart : List Char → Option (List Char)
  | [] => none
  | c :: rest =>
    if isPySpace c then
      match matchValuePart rest with
      | some v => some v
      | none => if c = '\n' then none else some ((c :: rest).takeWhile (fun x => x ≠ '\n'))
    else if c = '\n' then none
    else some ((c :: rest).takeWhile (fun x => x ≠ '\n'))

/-- Try the field prefix of length `k`, then `k - 1`, ..., mirroring the
backtracking of the greedy `(\w+)`. -/
def clauseAt (cs : List Char) : ℕ → Option (List Char × FilterOp × List Char)
  | 0 => none
  | k + 1 =>
    let fieldPart := cs.take (k + 1)
    let rest := (cs.drop (k + 1)).dropWhile isPySpace
    match (opCandidates rest).findSome?
        (fun p => (matchValuePart p.2).map (fun v => (fieldPart, p.1, v))) with
    | some res => some res
    | none => clauseAt cs k

/-- Model of `_FILTER_PATTERN.match` on one (already stripped) clause. -/
def matchClause (cs : List Char) : Option (List Char × FilterOp × List Char) :=
  clauseAt cs (cs.takeWhile isWordChar).length

/-- Match the separator `\s+and\s+` (case-insensitive) at the head of the
text; a match returns how many characters beyond the first one it consumed
(the first matched character is the list head, always a space). -/
def matchAndSep (cs : List Char) : Option ℕ :=
  match cs with
  | [] => none
  | c :: rest =>
    if isPySpace c then
      let sp1 := rest.takeWhile isPySpace
      match rest.drop sp1.length with
      | a :: n :: d :: r2 =>
        if a.toLower = 'a' ∧ n.toLower = 'n' ∧ d.toLower = 'd' then
          match r2 with
          | s :: r3 =>
            if isPySpace s then some (sp1.length + 4 + (r3.takeWhile isPySpace).length)
            else none
          | [] => none
        else none
      | _ => none
    else none

/-- Scanner of the `re.split` model: walk the text left to right, starting a
new segment after each leftmost separator match. Each step consumes at least
one character, so the text length is structural fuel; with the initial fuel
of `splitAnd` the fuel-exhausted branch is unreachable. -/
def splitAndGo : ℕ → List Char → List Char → List (List Char)
  | _, acc, [] => [acc.reverse]
  | 0, acc, cs => [acc.reverse ++ cs]
  | fuel + 1, acc, c :: rest =>
    match matchAndSep (c :: rest) with
    | some k => acc.reverse :: splitAndGo fuel [] (rest.drop k)
    | none => splitAndGo fuel (c :: acc) rest

/-- Model of `re.split(r"\s+and\s+", expression, flags=re.IGNORECASE)`:
leftmost non-overlapping separator matches split the text. -/
def splitAnd (cs : List Char) : List (List Char) := splitAndGo cs.length [] cs

/-- Model of `_parse_value`: strip whitespace and quotes, then try a float,
falling back to the (stripped) string. -/
def parse_value (raw : String) : Value :=
  let s := stripQuotes (pyStrip raw)
  match pyFloatParse s with
  | some q => .num q
  | none => .str s

/-- Parse a whole filter expression into clauses; `none` when any clause
fails to match, the event on which `_safe_filter` falls back. -/
def parseFilters (expression : String) : Option (List (String × FilterOp × Value)) :=
  (splitAnd expression.data).mapM (fun cl =>
    (matchClause (pyStrip (String.mk cl)).data).map
      (fun t => (String.mk t.1, t.2.1, parse_value (String.mk t.2.2))))

/-- Python `==` on filter operands: equal only within a type, never a raised
error. -/
def pyEq : Value → Value → Bool
  | .num a, .num b => a = b
  | .str a, .str b => a = b
  | .null, .null => true
  | _, _ => false

/-- Python `>` on filter operands: numbers and strings compare within their
type; a mixed comparison raises `TypeError`, which `_safe_filter` catches
into `False`. -/
def pyGt : Value → Value → Bool
  | .num a, .num b => a > b
  | .str a, .str b => b < a
  | _, _ => false

/-- Python `<` with the same `TypeError`-to-`False` policy. -/
def pyLt : Value → Value → Bool
  | .num a, .num b => a < b
  | .str a, .str b => a < b
  | _, _ => false

/-- Python `>=` with the same `TypeError`-to-`False` policy. -/
def pyGe : Value → Value → Bool
  | .num a, .num b => a ≥ b
  | .str a, .str b => b ≤ a
  | _, _ => false

/-- Python `<=` with the same `TypeError`-to-`False` policy. -/
def pyLe : Value → Value → Bool
  | .num a, .num b => a ≤ b
  | .str a, .str b => a ≤ b
  | _, _ => false

/-- Substring check `needle in haystack` on Python strings. -/
def pyInStr (needle haystack : String) : Bool :=
  decide (needle.data <:+: haystack.data)

/-- Evaluate one clause body on a record value and a filter value: the
string-lowering, the operator dispatch and the `except TypeError` branch of
`_safe_filter`'s inner loop. -/
def evalOp (op : FilterOp) (rv0 v0 : Value) : Bool :=
  let p : Value × Value :=
    match rv0, v0 with
    | .str a, .str b => (.str (pyLower a), .str (pyLower b))
    | _, _ => (rv0, v0)
  let rv := p.1
  let v := p.2
  match op with
  | .opEq => pyEq rv v
  | .opNe => !pyEq rv v
  | .opGt => pyGt rv v
  | .opLt => pyLt rv v
  | .opGe => pyGe rv v
  | .opLe => pyLe rv v
  | .opContains => pyInStr (pyLower (pyStr v)) (pyLower (pyStr rv))

/-- Evaluate one clause on a record: a missing field or a stored null makes
the clause fail (the record is excluded, never an error). -/
def evalClause (record : AttrMap) (f : String) (op : FilterOp) (v : Value) : Bool :=
  match record.lookup f with
  | none => false
  | some .null => false
  | some rv => evalOp op rv v

/-- Conjunction of the clauses on one record (the loop with early break). -/
def evalRecord (record : AttrMap) (filters : List (String × FilterOp × Value)) : Bool :=
  filters.all (fun t => evalClause record t.1 t.2.1 t.2.2)

/-- Model of `_safe_filter`: filter records using the safe expression parser;
invalid expressions return all records, and the function is total — no
exception can escape. -/
def safe_filter (records : List AttrMap) (expression : String) : List AttrMap :=
  if expression = "" ∨ records = [] then records
  else
    match parseFilters expression with
    | none => records
    | some filters => records.filter (fun r => evalRecord r filters)

/-! ### Hybrid RRF search (`plotlot/retrieval/search.py`)

The SQL of `_hybrid_rrf` runs over the `ordinance_chunks` relation. A row is
modelled with the quantities the two ranked CTEs order by: the cosine
distance of its embedding to the query embedding (`embedding <=> :embedding`)
and its lexical relevance (`ts_rank`), plus the predicates of the two WHERE
clauses. Ties in either ORDER BY follow the store's row order, modelled by
the stable `mergeSort` on the table's row list; payload columns ride along
with the join key `id`. -/

/-- The RRF constant `RRF_K = 60`. -/
def RRF_K : ℕ := 60

/-- One `ordinance_chunks` row as seen by the two ranked sub-queries. -/
structure Chunk where
  id : ℕ
  municipality : String
  hasEmbedding : Bool
  vdist : ℚ
  krel : ℚ
  textMatch : Bool
  zone_codes : List String

/-- Case-insensitive substring match: `municipality ILIKE '%' || m || '%'`. -/
def iLike (pat hay : String) : Bool :=
  decide ((pyLower pat).data <:+: (pyLower hay).data)

/-- The `vector_results` CTE: municipality-filtered rows with an embedding,
ordered by ascending distance (stably, so ties keep row order), top `pool`
kept. -/
def vectorResults (table : List Chunk) (municipality : String) (pool : ℕ) : List Chunk :=
  ((table.filter (fun c => iLike municipality c.municipality && c.hasEmbedding)).insertionSort
    (fun a b => a.vdist ≤ b.vdist)).take pool

/-- The `keyword_results` CTE: municipality-filtered rows matching the text
query or carrying the zone code, ordered by descending `ts_rank` (stably),
top `pool` kept. -/
def keywordResults (table : List Chunk) (municipality zone_code : String) (pool : ℕ) :
    List Chunk :=
  ((table.filter (fun c =>
      iLike municipality c.municipality && (c.textMatch || c.zone_codes.contains zone_code))).insertionSort
    (fun a b => b.krel ≤ a.krel)).take pool

/-- The 1-based `ROW_NUMBER` of a chunk id inside a ranked pool. -/
def rankIn (pool : List Chunk) (i : ℕ) : Option ℕ :=
  (pool.findIdx? (fun c => c.id = i)).map (· + 1)

/-- The fused RRF score:
`COALESCE(1.0/(60 + vrank), 0) + COALESCE(1.0/(60 + krank), 0)`. -/
def rrfScore (v k : List Chunk) (i : ℕ) : ℚ :=
  (match rankIn v i with
   | some r => 1 / ((RRF_K : ℚ) + r)
   | none => 0) +
  (match rankIn k i with
   | some r => 1 / ((RRF_K : ℚ) + r)
   | none => 0)

/-- The id set of the `FULL OUTER JOIN` of the two pools: every vector row,
then every keyword row not matched by id. -/
def fusedIds (v k : List Chunk) : List ℕ :=
  v.map (·.id) ++ (k.map (·.id)).filter (fun i => !(v.map (·.id)).contains i)

/-- Model of `_hybrid_rrf`: fuse the two ranked pools (each of size
`limit * 3`), sort descending by fused score, return the top `limit` as
(id, rrf_score) rows. -/
def hybrid_rrf (table : List Chunk) (municipality zone_code : String) (limit : ℕ) :
    List (ℕ × ℚ) :=
  let pool_size := limit * 3
  let v := vectorResults table municipality pool_size
  let k := keywordResults table municipality zone_code pool_size
  let fused := (fusedIds v k).map (fun i => (i, rrfScore v k i))
  (fused.insertionSort (fun a b => b.2 ≤ a.2)).take limit

/-- Totality of the descending fused-score order used by the RRF sort. -/
instance : IsTotal (ℕ × ℚ) (fun a b => b.2 ≤ a.2) := ⟨fun a b => le_total b.2 a.2⟩

/-- Transitivity of the descending fused-score order used by the RRF sort. -/
instance : IsTrans (ℕ × ℚ) (fun a b => b.2 ≤ a.2) := ⟨fun _ _ _ h1 h2 => le_trans h2 h1⟩

/-- Decidable equality of call outcomes, for evaluating the models on
concrete inputs. -/
instance {ε α : Type} [DecidableEq ε] [DecidableEq α] : DecidableEq (Except ε α)
  | .error e, .error f =>
    if h : e = f then .isTrue (by rw [h]) else .isFalse (by intro q; cases q; exact h rfl)
  | .error _, .ok _ => .isFalse (by intro q; cases q)
  | .ok _, .error _ => .isFalse (by intro q; cases q)
  | .ok a, .ok b =>
    if h : a = b then .isTrue (by rw [h]) else .isFalse (by intro q; cases q; exact h rfl)

/-! ## Supporting lemmas -/

theorem infix_append_left {l b : List Char} (a : List Char) (h : l <:+: b) :
    l <:+: a ++ b := by
  rcases h with ⟨s, t, rfl⟩
  exact ⟨a ++ s, t, by simp⟩

theorem markAt_length (n : ℕ) (l : List ConstraintResult) :
    (markAt n l).length = l.length := by
  induction l generalizing n with
  | nil => simp [markAt]
  | cons c rest ih =>
    cases n with
    | zero => simp [markAt]
    | succ m => simp [markAt, ih]

theorem markAt_getElem (n j : ℕ) (l : List ConstraintResult) (hj : j < l.length)
    (hj2 : j < (markAt n l).length) :
    (markAt n l)[j] = if j = n then { l[j] with is_governing := true } else l[j] := by
  induction l generalizing n j with
  | nil => simp at hj
  | cons c rest ih =>
    cases n with
    | zero =>
      cases j with
      | zero => simp [markAt]
      | succ i => simp [markAt]
    | succ m =>
      cases j with
      | zero => simp [markAt]
      | succ i =>
        simp only [markAt, List.getElem_cons_succ]
        have hi : i < rest.length := by simpa using hj
        have hi2 : i < (markAt m rest).length := by simpa [markAt_length] using hj
        rw [ih m i hi hi2]
        simp

theorem markAt_map_name (n : ℕ) (l : List ConstraintResult) :
    (markAt n l).map (fun c => c.name) = l.map (fun c => c.name) := by
  induction l generalizing n with
  | nil => simp [markAt]
  | cons c rest ih =>
    cases n with
    | zero => simp [markAt]
    | succ m => simp [markAt, ih]

theorem markAt_map_units (n : ℕ) (l : List ConstraintResult) :
    (markAt n l).map (fun c => c.max_units) = l.map (fun c => c.max_units) := by
  induction l generalizing n with
  | nil => simp [markAt]
  | cons c rest ih =>
    cases n with
    | zero => simp [markAt]
    | succ m => simp [markAt, ih]

theorem firstMinIdx_lt (l : List ConstraintResult) (h : l ≠ []) :
    firstMinIdx l < l.length := by
  induction l with
  | nil => exact absurd rfl h
  | cons c rest ih =>
    by_cases hall : rest.all (fun x => decide (c.max_units ≤ x.max_units)) = true
    · simp [firstMinIdx, hall]
    · have hrest : rest ≠ [] := by
        intro hr; rw [hr] at hall; simp at hall
      have := ih hrest
      simp only [firstMinIdx, hall, if_false]
      simpa using Nat.succ_lt_succ this

theorem firstMinIdx_min (l : List ConstraintResult) (j : ℕ) (hj : j < l.length)
    (hi : firstMinIdx l < l.length) :
    (l[firstMinIdx l]).max_units ≤ (l[j]).max_units := by
  induction l generalizing j with
  | nil => simp at hj
  | cons c rest ih =>
    by_cases hall : rest.all (fun x => decide (c.max_units ≤ x.max_units)) = true
    · cases j with
      | zero => simp [firstMinIdx, hall]
      | succ i =>
        have hij : i < rest.length := by simpa using hj
        have hmem : rest[i] ∈ rest := List.getElem_mem _
        have := of_decide_eq_true ((List.all_eq_true.mp hall) _ hmem)
        simpa [firstMinIdx, hall] using this
    · have hall' : rest.all (fun x => decide (c.max_units ≤ x.max_units)) = false := by
        revert hall; cases rest.all (fun x => decide (c.max_units ≤ x.max_units)) <;> simp
      have hrest : rest ≠ [] := by
        intro hr; rw [hr] at hall'; simp at hall'
      have hlt := firstMinIdx_lt rest hrest
      rcases List.all_eq_false.mp hall' with ⟨x, hxmem, hx⟩
      rcases List.getElem_of_mem hxmem with ⟨k, hk, rfl⟩
      have h2 : ¬ c.max_units ≤ rest[k].max_units := fun hc => hx (decide_eq_true hc)
      cases j with
      | zero =>
        have h1 := ih k hk hlt
        simp [firstMinIdx, hall'] at hi ⊢
        omega
      | succ i =>
        have hij : i < rest.length := by simpa using hj
        have h1 := ih i hij hlt
        simp [firstMinIdx, hall'] at hi ⊢
        exact h1

theorem firstMinIdx_first (l : List ConstraintResult) (j : ℕ) (hj : j < l.length)
    (hi : firstMinIdx l < l.length) (hji : j < firstMinIdx l) :
    (l[firstMinIdx l]).max_units < (l[j]).max_units := by
  induction l generalizing j with
  | nil => simp at hj
  | cons c rest ih =>
    by_cases hall : rest.all (fun x => decide (c.max_units ≤ x.max_units)) = true
    · simp [firstMinIdx, hall] at hji
    · have hall' : rest.all (fun x => decide (c.max_units ≤ x.max_units)) = false := by
        revert hall; cases rest.all (fun x => decide (c.max_units ≤ x.max_units)) <;> simp
      have hrest : rest ≠ [] := by
        intro hr; rw [hr] at hall'; simp at hall'
      have hlt := firstMinIdx_lt rest hrest
      cases j with
      | zero =>
        rcases List.all_eq_false.mp hall' with ⟨x, hxmem, hx⟩
        rcases List.getElem_of_mem hxmem with ⟨k, hk, rfl⟩
        have h2 : ¬ c.max_units ≤ rest[k].max_units := fun hc => hx (decide_eq_true hc)
        have h1 := firstMinIdx_min rest k hk hlt
        simp [firstMinIdx, hall'] at hi ⊢
        omega
      | succ i =>
        have hij : i < rest.length := by simpa using hj
        simp [firstMinIdx, hall'] at hi hji ⊢
        exact ih i hij hlt (by omega)

theorem evalConstraints_not_governing (lot : ℚ) (params : NumericZoningParams)
    (w d : Option ℚ) :
    ∀ c ∈ evalConstraints lot params w d, c.is_governing = false := by
  intro c hc
  simp only [evalConstraints, List.mem_append] at hc
  rcases hc with ((h | h) | h) | h
  · unfold densityConstraint at h
    split at h <;> simp_all <;> split at h <;> simp_all
  · unfold minLotAreaConstraint at h
    split at h <;> simp_all <;> split at h <;> simp_all
  · unfold farConstraint at h
    split at h <;> simp_all <;> split at h <;> simp_all
  · unfold envelopeConstraint at h
    split at h <;> simp_all <;> split at h <;> simp_all

theorem evalConstraints_units_pos (lot : ℚ) (params : NumericZoningParams)
    (w d : Option ℚ) :
    ∀ c ∈ evalConstraints lot params w d, 1 ≤ c.max_units := by
  intro c hc
  simp only [evalConstraints, List.mem_append] at hc
  rcases hc with ((h | h) | h) | h
  · unfold densityConstraint at h
    split at h <;> simp_all <;> split at h <;> simp_all
  · unfold minLotAreaConstraint at h
    split at h <;> simp_all <;> split at h <;> simp_all
  · unfold farConstraint at h
    split at h <;> simp_all <;> split at h <;> simp_all
  · unfold envelopeConstraint at h
    split at h <;> simp_all <;> split at h <;> simp_all

theorem evalConstraints_names_sublist (lot : ℚ) (params : NumericZoningParams)
    (w d : Option ℚ) :
    List.Sublist ((evalConstraints lot params w d).map (fun c => c.name))
      ["density", "min_lot_area", "floor_area_ratio", "buildable_envelope"] := by
  have h1 : List.Sublist ((densityConstraint lot params).map (fun c => c.name)) ["density"] := by
    unfold densityConstraint
    split
    · split
      · simp
      · simp
    · simp
  have h2 : List.Sublist ((minLotAreaConstraint lot params).map (fun c => c.name)) ["min_lot_area"] := by
    unfold minLotAreaConstraint
    split
    · split
      · simp
      · simp
    · simp
  have h3 : List.Sublist ((farConstraint lot params).map (fun c => c.name)) ["floor_area_ratio"] := by
    unfold farConstraint
    split
    · split
      · simp
      · simp
    · simp
  have h4 : List.Sublist ((envelopeConstraint (calc_buildable_area w d params).1 params).map
      (fun c => c.name)) ["buildable_envelope"] := by
    unfold envelopeConstraint
    split
    · split
      · simp
      · simp
    · simp
  have : (evalConstraints lot params w d).map (fun c => c.name) =
      (densityConstraint lot params).map (fun c => c.name) ++
      (minLotAreaConstraint lot params).map (fun c => c.name) ++
      (farConstraint lot params).map (fun c => c.name) ++
      (envelopeConstraint (calc_buildable_area w d params).1 params).map (fun c => c.name) := by
    simp [evalConstraints]
  rw [this]
  have := ((h1.append h2).append h3).append h4
  simpa using this

theorem calculate_max_units_of_cons (lot : ℚ) (params : NumericZoningParams)
    (w d : Option ℚ) (hl : 0 < lot) (c0 : ConstraintResult) (rest : List ConstraintResult)
    (hL : evalConstraints lot params w d = c0 :: rest) :
    calculate_max_units lot params w d =
      { max_units := ((c0 :: rest).getD (firstMinIdx (c0 :: rest)) c0).max_units,
        governing_constraint := ((c0 :: rest).getD (firstMinIdx (c0 :: rest)) c0).name,
        constraints := markAt (firstMinIdx (c0 :: rest)) (c0 :: rest),
        lot_size_sqft := lot,
        buildable_area_sqft := (calc_buildable_area w d params).1,
        lot_width_ft := w, lot_depth_ft := d,
        confidence := confidenceOf (c0 :: rest).length,
        notes := (calc_buildable_area w d params).2 } := by
  unfold calculate_max_units
  rw [if_neg (not_le.mpr hl), hL]

theorem calculate_max_units_of_nil (lot : ℚ) (params : NumericZoningParams)
    (w d : Option ℚ) (hl : 0 < lot)
    (hL : evalConstraints lot params w d = []) :
    calculate_max_units lot params w d =
      { max_units := 0, governing_constraint := "insufficient_data", constraints := [],
        lot_size_sqft := lot,
        buildable_area_sqft := (calc_buildable_area w d params).1,
        lot_width_ft := w, lot_depth_ft := d,
        confidence := "low",
        notes := (calc_buildable_area w d params).2 ++
          ["No numeric zoning parameters available for calculation."] } := by
  unfold calculate_max_units
  rw [if_neg (not_le.mpr hl), hL]

/-! ## The claims -/

/-- C1. With a positive lot size and at least one evaluated constraint,
`calculate_max_units` marks exactly one constraint `is_governing`; that
constraint has the minimum `max_units` among all evaluated constraints, a
tie resolving to the first in the evaluation order (density, min_lot_area,
floor_area_ratio, buildable_envelope — the order of the constraint list),
and the analysis's `max_units` and `governing_constraint` equal that
constraint's `max_units` and `name`. -/
theorem governing_constraint_unique_minimal
    (lot : ℚ) (params : NumericZoningParams) (w d : Option ℚ)
    (hl : 0 < lot)
    (hne : (calculate_max_units lot params w d).constraints ≠ []) :
    ∃ i : ℕ, ∃ hi : i < (calculate_max_units lot params w d).constraints.length,
      ((calculate_max_units lot params w d).constraints[i].is_governing = true) ∧
      (∀ j, ∀ hj : j < (calculate_max_units lot params w d).constraints.length,
        (calculate_max_units lot params w d).constraints[j].is_governing = true → j = i) ∧
      (∀ j, ∀ hj : j < (calculate_max_units lot params w d).constraints.length,
        (calculate_max_units lot params w d).constraints[i].max_units ≤
          (calculate_max_units lot params w d).constraints[j].max_units) ∧
      (∀ j, ∀ hj : j < (calculate_max_units lot params w d).constraints.length, j < i →
        (calculate_max_units lot params w d).constraints[i].max_units <
          (calculate_max_units lot params w d).constraints[j].max_units) ∧
      (calculate_max_units lot params w d).max_units =
        (calculate_max_units lot params w d).constraints[i].max_units ∧
      (calculate_max_units lot params w d).governing_constraint =
        (calculate_max_units lot params w d).constraints[i].name ∧
      List.Sublist ((calculate_max_units lot params w d).constraints.map (fun c => c.name))
        ["density", "min_lot_area", "floor_area_ratio", "buildable_envelope"] := by
  cases hL : evalConstraints lot params w d with
  | nil =>
    rw [calculate_max_units_of_nil lot params w d hl hL] at hne
    exact absurd rfl hne
  | cons c0 rest =>
    rw [calculate_max_units_of_cons lot params w d hl c0 rest hL] at hne ⊢
    simp only
    have hLne : (c0 :: rest) ≠ [] := by simp
    have hfm := firstMinIdx_lt (c0 :: rest) hLne
    have hfalse : ∀ c ∈ (c0 :: rest), c.is_governing = false := by
      rw [← hL]; exact evalConstraints_not_governing lot params w d
    have hnames : List.Sublist ((c0 :: rest).map (fun c => c.name))
        ["density", "min_lot_area", "floor_area_ratio", "buildable_envelope"] := by
      rw [← hL]; exact evalConstraints_names_sublist lot params w d
    refine ⟨firstMinIdx (c0 :: rest), ?_, ?_, ?_, ?_, ?_, ?_, ?_, ?_⟩
    · simpa [markAt_length] using hfm
    · rw [markAt_getElem _ _ _ hfm (by simpa [markAt_length] using hfm)]
      simp
    · intro j hj hgov
      have hjL : j < (c0 :: rest).length := by simpa [markAt_length] using hj
      rw [markAt_getElem _ _ _ hjL (by simpa [markAt_length] using hjL)] at hgov
      by_contra hji
      rw [if_neg hji] at hgov
      have := hfalse ((c0 :: rest)[j]) (List.getElem_mem _)
      rw [this] at hgov
      exact Bool.false_ne_true hgov
    · intro j hj
      have hjL : j < (c0 :: rest).length := by simpa [markAt_length] using hj
      rw [markAt_getElem _ _ _ hfm (by simpa [markAt_length] using hfm),
        markAt_getElem _ _ _ hjL (by simpa [markAt_length] using hjL)]
      have := firstMinIdx_min (c0 :: rest) j hjL hfm
      split <;> split <;> simpa using this
    · intro j hj hji
      have hjL : j < (c0 :: rest).length := by simpa [markAt_length] using hj
      rw [markAt_getElem _ _ _ hfm (by simpa [markAt_length] using hfm),
        markAt_getElem _ _ _ hjL (by simpa [markAt_length] using hjL)]
      have := firstMinIdx_first (c0 :: rest) j hjL hfm hji
      split <;> split <;> simpa using this
    · rw [markAt_getElem _ _ _ hfm (by simpa [markAt_length] using hfm)]
      rw [List.getD_eq_getElem (c0 :: rest) c0 hfm]
      simp
    · rw [markAt_getElem _ _ _ hfm (by simpa [markAt_length] using hfm)]
      rw [List.getD_eq_getElem (c0 :: rest) c0 hfm]
      simp
    · rw [markAt_map_name]
      exact hnames

/-- C1 witness: the 7500 sqft / 6 units-per-acre scenario has a positive lot
size and one evaluated constraint, so the theorem applies. -/
theorem governing_constraint_unique_minimal_witness :
    (0 : ℚ) < 7500 ∧
    (calculate_max_units 7500 { max_density_units_per_acre := some 6 }).constraints ≠ [] ∧
    (∃ i : ℕ, ∃ hi : i <
        (calculate_max_units 7500 { max_density_units_per_acre := some 6 }).constraints.length,
      ((calculate_max_units 7500
        { max_density_units_per_acre := some 6 }).constraints[i].is_governing = true) ∧
      (∀ j, ∀ hj : j <
          (calculate_max_units 7500 { max_density_units_per_acre := some 6 }).constraints.length,
        (calculate_max_units 7500
          { max_density_units_per_acre := some 6 }).constraints[j].is_governing = true → j = i) ∧
      (∀ j, ∀ hj : j <
          (calculate_max_units 7500 { max_density_units_per_acre := some 6 }).constraints.length,
        (calculate_max_units 7500
            { max_density_units_per_acre := some 6 }).constraints[i].max_units ≤
          (calculate_max_units 7500
            { max_density_units_per_acre := some 6 }).constraints[j].max_units) ∧
      (∀ j, ∀ hj : j <
          (calculate_max_units 7500 { max_density_units_per_acre := some 6 }).constraints.length,
          j < i →
        (calculate_max_units 7500
            { max_density_units_per_acre := some 6 }).constraints[i].max_units <
          (calculate_max_units 7500
            { max_density_units_per_acre := some 6 }).constraints[j].max_units) ∧
      (calculate_max_units 7500 { max_density_units_per_acre := some 6 }).max_units =
        (calculate_max_units 7500
          { max_density_units_per_acre := some 6 }).constraints[i].max_units ∧
      (calculate_max_units 7500 { max_density_units_per_acre := some 6 }).governing_constraint =
        (calculate_max_units 7500
          { max_density_units_per_acre := some 6 }).constraints[i].name ∧
      List.Sublist ((calculate_max_units 7500
          { max_density_units_per_acre := some 6 }).constraints.map (fun c => c.name))
        ["density", "min_lot_area", "floor_area_ratio", "buildable_envelope"]) := by
  have h1 : (0 : ℚ) < 7500 := by norm_num
  have h2 : (calculate_max_units 7500
      { max_density_units_per_acre := some 6 }).constraints ≠ [] := by
    simp [calculate_max_units, evalConstraints, densityConstraint, minLotAreaConstraint,
      farConstraint, envelopeConstraint, calc_buildable_area, markAt,
      (by norm_num : ¬ (7500 : ℚ) ≤ 0)]
  exact ⟨h1, h2, governing_constraint_unique_minimal 7500
    { max_density_units_per_acre := some 6 } none none h1 h2⟩

/-- C2 counterexample: the claim accepts `'palm-beach'` as a
hyphen-insensitive spelling of Palm Beach, but `build_where_clause` rejects
it — only Miami-Dade has both a hyphenated and a spaced key in
`_COUNTY_MAP`. -/
theorem county_palm_beach_hyphen_rejected :
    build_where_clause { county := "palm-beach" } =
      .error "Unsupported county: palm-beach. Supported: Miami-Dade, Broward, Palm Beach" := by
  rfl

/-- C2 (amended). `build_where_clause` succeeds exactly for county strings
whose lowercased, whitespace-stripped form is one of `miami-dade`,
`miami dade`, `broward`, `palm beach` (hyphen and space are interchangeable
only for Miami-Dade); every other county string fails with an error whose
message names all three supported counties. -/
theorem county_resolution_spec (county : String) :
    ((pyStrip (pyLower county) = "miami-dade" ∨ pyStrip (pyLower county) = "miami dade" ∨
      pyStrip (pyLower county) = "broward" ∨ pyStrip (pyLower county) = "palm beach") →
      ∃ fm, build_where_clause { county := county } = .ok ("1=1", fm)) ∧
    (¬ (pyStrip (pyLower county) = "miami-dade" ∨ pyStrip (pyLower county) = "miami dade" ∨
        pyStrip (pyLower county) = "broward" ∨ pyStrip (pyLower county) = "palm beach") →
      ∀ params : PropertySearchParams, params.county = county →
        build_where_clause params =
          .error ("Unsupported county: " ++ county ++
            ". Supported: Miami-Dade, Broward, Palm Beach") ∧
        ("Miami-Dade".data <:+: ("Unsupported county: " ++ county ++
            ". Supported: Miami-Dade, Broward, Palm Beach").data ∧
         "Broward".data <:+: ("Unsupported county: " ++ county ++
            ". Supported: Miami-Dade, Broward, Palm Beach").data ∧
         "Palm Beach".data <:+: ("Unsupported county: " ++ county ++
            ". Supported: Miami-Dade, Broward, Palm Beach").data)) := by
  constructor
  · intro hkey
    have hfm : ∃ fm, get_field_map county = .ok fm := by
      unfold get_field_map
      rcases hkey with h | h | h | h <;>
        simp [COUNTY_MAP, List.lookup, h]
    rcases hfm with ⟨fm, hfm⟩
    refine ⟨fm, ?_⟩
    unfold build_where_clause
    rw [hfm]
    rfl
  · intro hkey params hc
    have hnone : COUNTY_MAP.lookup (pyStrip (pyLower county)) = none := by
      push_neg at hkey
      obtain ⟨h1, h2, h3, h4⟩ := hkey
      have e1 : (pyStrip (pyLower county) == "miami-dade") = false := beq_eq_false_iff_ne.mpr h1
      have e2 : (pyStrip (pyLower county) == "miami dade") = false := beq_eq_false_iff_ne.mpr h2
      have e3 : (pyStrip (pyLower county) == "broward") = false := beq_eq_false_iff_ne.mpr h3
      have e4 : (pyStrip (pyLower county) == "palm beach") = false := beq_eq_false_iff_ne.mpr h4
      simp [COUNTY_MAP, List.lookup, e1, e2, e3, e4]
    have herr : get_field_map county =
        .error ("Unsupported county: " ++ county ++
          ". Supported: Miami-Dade, Broward, Palm Beach") := by
      unfold get_field_map
      rw [hnone]
    constructor
    · unfold build_where_clause
      rw [hc, herr]
      rfl
    · refine ⟨?_, ?_, ?_⟩ <;>
      · simp only [String.data_append]
        apply infix_append_left
        decide


/-- C2 witness: the amended theorem applied at `"Miami Dade"` (an accepted
spelling) and at `"Monroe"` (rejected, with the error naming the three
counties). -/
theorem county_resolution_spec_witness :
    (∃ fm, build_where_clause { county := "Miami Dade" } = .ok ("1=1", fm)) ∧
    (build_where_clause { county := "Monroe" } =
      .error ("Unsupported county: " ++ "Monroe" ++
        ". Supported: Miami-Dade, Broward, Palm Beach") ∧
     ("Miami-Dade".data <:+: ("Unsupported county: " ++ "Monroe" ++
        ". Supported: Miami-Dade, Broward, Palm Beach").data ∧
      "Broward".data <:+: ("Unsupported county: " ++ "Monroe" ++
        ". Supported: Miami-Dade, Broward, Palm Beach").data ∧
      "Palm Beach".data <:+: ("Unsupported county: " ++ "Monroe" ++
        ". Supported: Miami-Dade, Broward, Palm Beach").data)) :=
  ⟨(county_resolution_spec "Miami Dade").1 (Or.inr (Or.inl (by decide))),
   (county_resolution_spec "Monroe").2 (by decide) { county := "Monroe" } rfl⟩

/-- C8. A `max_sale_date` of 2006-01-01 translates to the 8-digit string
`'20060101'` in the sale-date condition for Miami-Dade, to epoch
milliseconds 1136073600000 for Palm Beach, and for Broward (no sale-date
field) the filter is silently dropped — the clause is the tautology and no
error is raised. -/
theorem max_sale_date_translation :
    build_where_clause { county := "Miami-Dade", max_sale_date := some "2006-01-01" } =
      .ok ("DOS_1<'20060101'", MDC_FIELDS) ∧
    build_where_clause { county := "Palm Beach", max_sale_date := some "2006-01-01" } =
      .ok ("SALE_DATE<1136073600000", PBC_FIELDS) ∧
    build_where_clause { county := "Broward", max_sale_date := some "2006-01-01" } =
      .ok ("1=1", BROWARD_FIELDS) := by
  refine ⟨?_, ?_, ?_⟩ <;> rfl

theorem pyRound1_eq_self (q : ℚ) (h : (10 * q).den = 1) : pyRound1 q = q := by
  unfold pyRound1 roundHalfEven
  have hint : ((10 * q).num : ℚ) = 10 * q := Rat.coe_int_num_of_den_eq_one h
  have hfl : ⌊10 * q⌋ = (10 * q).num := by
    conv_lhs => rw [← hint]
    exact Int.floor_intCast _
  rw [hfl]
  simp only [hint]
  rw [if_pos (by norm_num)]
  rw [hint]
  ring

theorem normalize_record_lot_size (attrs : AttrMap) (g : Option (ℚ × ℚ))
    (fm : CountyFieldMap) :
    (normalize_record attrs g fm).lot_size_sqft =
      pyRound1 (if fm.lot_size_unit = "acres" ∧
          (if fm.lot_size ≠ "" then safe_float (attrs.lookup fm.lot_size) else 0) > 0
        then (if fm.lot_size ≠ "" then safe_float (attrs.lookup fm.lot_size) else 0) * 43560
        else (if fm.lot_size ≠ "" then safe_float (attrs.lookup fm.lot_size) else 0)) :=
  rfl

/-- C6 counterexample: the claim says a sqft county's lot size passes
through unchanged, but `_normalize_record` rounds it to one decimal:
a Miami-Dade `LOT_SIZE` of 100.26 comes back as 100.3. -/
theorem lot_size_not_passthrough :
    (normalize_record [("LOT_SIZE", Value.num (10026 / 100))] none MDC_FIELDS).lot_size_sqft ≠
      10026 / 100 := by
  have h : (normalize_record [("LOT_SIZE", Value.num (10026 / 100))] none
      MDC_FIELDS).lot_size_sqft = 1003 / 10 := by
    simp only [normalize_record, MDC_FIELDS]
    norm_num [safe_float, pyRound1, roundHalfEven, List.lookup,
      (by decide : ¬ ("sqft" : String) = "acres"), (by decide : ¬ ("LOT_SIZE" : String) = "")]
  rw [h]
  norm_num

/-- C6 (amended). `lot_size_sqft` is always in square feet up to the
1-decimal rounding the normalizer applies: for the acres county (Palm
Beach) a positive raw value is multiplied by 43,560 and rounded to one
decimal (0.5 acres gives exactly 21,780.0, well within 0.01 relative
tolerance); for a county already in sqft (Miami-Dade) the value passes
through changed only by round-half-even at one decimal, so any value with
at most one decimal place is unchanged; an absent or missing lot-size field
yields 0, not null (Broward has no lot-size field at all and always yields
0). -/
theorem lot_size_always_sqft (attrs : AttrMap) (g : Option (ℚ × ℚ)) :
    (0 < safe_float (attrs.lookup "ACRES") →
      (normalize_record attrs g PBC_FIELDS).lot_size_sqft =
        pyRound1 (safe_float (attrs.lookup "ACRES") * 43560)) ∧
    ((normalize_record attrs g MDC_FIELDS).lot_size_sqft =
      pyRound1 (safe_float (attrs.lookup "LOT_SIZE"))) ∧
    ((10 * safe_float (attrs.lookup "LOT_SIZE")).den = 1 →
      (normalize_record attrs g MDC_FIELDS).lot_size_sqft =
        safe_float (attrs.lookup "LOT_SIZE")) ∧
    (attrs.lookup "ACRES" = none →
      (normalize_record attrs g PBC_FIELDS).lot_size_sqft = 0) ∧
    ((normalize_record attrs g BROWARD_FIELDS).lot_size_sqft = 0) ∧
    ((normalize_record [("ACRES", Value.num (1 / 2))] none PBC_FIELDS).lot_size_sqft = 21780 ∧
     |(normalize_record [("ACRES", Value.num (1 / 2))] none PBC_FIELDS).lot_size_sqft - 21780| ≤
       (1 / 100) * 21780) := by
  have hzero : pyRound1 0 = 0 := pyRound1_eq_self 0 (by norm_num)
  have hpbc : ¬ ("ACRES" : String) = "" := by decide
  have hmdc : ¬ ("LOT_SIZE" : String) = "" := by decide
  refine ⟨?_, ?_, ?_, ?_, ?_, ?_, ?_⟩
  · intro hpos
    rw [normalize_record_lot_size]
    simp only [PBC_FIELDS, ne_eq, hpbc, not_false_eq_true, if_true, if_pos]
    rw [if_pos ⟨trivial, hpos⟩]
  · rw [normalize_record_lot_size]
    simp only [MDC_FIELDS, ne_eq, hmdc, not_false_eq_true, if_true]
    rw [if_neg]
    intro hcon
    exact absurd hcon.1 (by decide)
  · intro hden
    rw [normalize_record_lot_size]
    simp only [MDC_FIELDS, ne_eq, hmdc, not_false_eq_true, if_true]
    rw [if_neg (fun hcon => absurd hcon.1 (by decide))]
    exact pyRound1_eq_self _ hden
  · intro habs
    rw [normalize_record_lot_size]
    simp only [PBC_FIELDS, ne_eq, hpbc, not_false_eq_true, if_true, habs]
    rw [if_neg (by simp [safe_float])]
    simp [safe_float, hzero]
  · rw [normalize_record_lot_size]
    simp only [BROWARD_FIELDS, ne_eq, not_true_eq_false, if_false, ite_self]
    rw [if_neg (by norm_num)]
    exact hzero
  · simp only [normalize_record, PBC_FIELDS]
    norm_num [safe_float, pyRound1, roundHalfEven, List.lookup,
      (by decide : ("acres" : String) = "acres"), (by decide : ¬ ("ACRES" : String) = "")]
  · simp only [normalize_record, PBC_FIELDS]
    norm_num [safe_float, pyRound1, roundHalfEven, List.lookup,
      (by decide : ("acres" : String) = "acres"), (by decide : ¬ ("ACRES" : String) = "")]

/-- C6 witness: the amended theorem applied to a concrete Palm Beach record
with 0.5 acres and to a concrete Miami-Dade record with a 1-decimal value. -/
theorem lot_size_always_sqft_witness :
    ((normalize_record [("ACRES", Value.num (1 / 2))] none PBC_FIELDS).lot_size_sqft =
      pyRound1 (safe_float ((([("ACRES", Value.num (1 / 2))] : AttrMap)).lookup "ACRES") * 43560)) ∧
    ((normalize_record [("LOT_SIZE", Value.num 7500)] none MDC_FIELDS).lot_size_sqft =
      safe_float ((([("LOT_SIZE", Value.num 7500)] : AttrMap)).lookup "LOT_SIZE")) ∧
    ((normalize_record ([] : AttrMap) none PBC_FIELDS).lot_size_sqft = 0) := by
  refine ⟨?_, ?_, ?_⟩
  · exact (lot_size_always_sqft [("ACRES", Value.num (1 / 2))] none).1
      (by norm_num [safe_float, List.lookup])
  · exact (lot_size_always_sqft [("LOT_SIZE", Value.num 7500)] none).2.2.1
      (by norm_num [safe_float, List.lookup])
  · exact (lot_size_always_sqft [] none).2.2.2.1 rfl

theorem normalize_record_sale_date (attrs : AttrMap) (g : Option (ℚ × ℚ))
    (fm : CountyFieldMap) :
    (normalize_record attrs g fm).last_sale_date =
      (if fm.sale_date ≠ "" then
        match attrs.lookup fm.sale_date with
        | none => ""
        | some raw =>
          if pyTruthy raw then
            match raw with
            | .num q =>
              if fm.sale_date_format = "epoch_ms" ∧ q > 0 then
                (epochMsToIsoDate q).getD (pyStr raw)
              else pyStr raw
            | _ => pyStr raw
          else ""
      else "") :=
  rfl

/-- C7. `last_sale_date` is an ISO-8601 date string or empty in each of the
three encodings: a positive epoch-milliseconds Palm Beach value becomes the
UTC civil date rendered as `YYYY-MM-DD`; an 8-digit Miami-Dade date string
passes through as that 8-digit (ISO-8601 basic format) string; an absent
sale-date attribute, or a county with no sale-date field (Broward), yields
the empty string. Concretely, epoch-ms 1136073600000 becomes
`"2006-01-01"`. -/
theorem last_sale_date_iso_or_empty (attrs : AttrMap) (g : Option (ℚ × ℚ)) :
    (∀ ms : ℚ, 0 < ms → attrs.lookup "SALE_DATE" = some (Value.num ms) →
      ∀ y m d : ℤ, civilFromDays ⌊ms / 1000 / 86400⌋ = (y, m, d) → 1 ≤ y → y ≤ 9999 →
        (normalize_record attrs g PBC_FIELDS).last_sale_date = fmtDateIso y m d) ∧
    (∀ s : String, s.length = 8 → (∀ c ∈ s.data, c.isDigit) →
      attrs.lookup "DOS_1" = some (Value.str s) →
      (normalize_record attrs g MDC_FIELDS).last_sale_date = s) ∧
    (attrs.lookup "SALE_DATE" = none →
      (normalize_record attrs g PBC_FIELDS).last_sale_date = "") ∧
    ((normalize_record attrs g BROWARD_FIELDS).last_sale_date = "") ∧
    ((normalize_record [("SALE_DATE", Value.num 1136073600000)] none
        PBC_FIELDS).last_sale_date = "2006-01-01") := by
  refine ⟨?_, ?_, ?_, ?_, ?_⟩
  · intro ms hpos hlook y m d hcivil hy1 hy2
    rw [normalize_record_sale_date]
    simp only [PBC_FIELDS, ne_eq, (by decide : ¬ ("SALE_DATE" : String) = ""),
      not_false_eq_true, if_true, hlook]
    have htruthy : pyTruthy (Value.num ms) = true := by
      simp [pyTruthy, ne_of_gt hpos]
    rw [if_pos htruthy, if_pos ⟨trivial, hpos⟩]
    unfold epochMsToIsoDate
    rw [hcivil]
    show (if 1 ≤ y ∧ y ≤ 9999 then some (fmtDateIso y m d) else none).getD
      (pyStr (Value.num ms)) = fmtDateIso y m d
    rw [if_pos ⟨hy1, hy2⟩]
    rfl
  · intro s hlen _hdig hlook
    rw [normalize_record_sale_date]
    simp only [MDC_FIELDS, ne_eq, (by decide : ¬ ("DOS_1" : String) = ""),
      not_false_eq_true, if_true, hlook]
    have hne : s ≠ "" := by
      intro h
      rw [h] at hlen
      simp at hlen
    have htruthy : pyTruthy (Value.str s) = true := by simp [pyTruthy, hne]
    rw [if_pos htruthy]
    rfl
  · intro habs
    rw [normalize_record_sale_date]
    simp only [PBC_FIELDS, ne_eq, (by decide : ¬ ("SALE_DATE" : String) = ""),
      not_false_eq_true, if_true, habs]
  · rw [normalize_record_sale_date]
    simp [BROWARD_FIELDS]
  · rw [normalize_record_sale_date]
    simp only [PBC_FIELDS, ne_eq, (by decide : ¬ ("SALE_DATE" : String) = ""),
      not_false_eq_true, if_true, List.lookup]
    norm_num [pyTruthy, epochMsToIsoDate, civilFromDays]
    decide

/-- C7 witness: the theorem applied to concrete records — Palm Beach
epoch-ms 1136073600000 (the 2006-01-01 UTC stamp), Miami-Dade string date
`"20060101"`, and an empty attribute map. -/
theorem last_sale_date_iso_or_empty_witness :
    ((normalize_record [("SALE_DATE", Value.num 1136073600000)] none
        PBC_FIELDS).last_sale_date = fmtDateIso 2006 1 1) ∧
    ((normalize_record [("DOS_1", Value.str "20060101")] none
        MDC_FIELDS).last_sale_date = "20060101") ∧
    ((normalize_record ([] : AttrMap) none PBC_FIELDS).last_sale_date = "") := by
  refine ⟨?_, ?_, ?_⟩
  · exact (last_sale_date_iso_or_empty [("SALE_DATE", Value.num 1136073600000)] none).1
      1136073600000 (by norm_num) (by simp [List.lookup]) 2006 1 1
      (by norm_num [civilFromDays]) (by norm_num) (by norm_num)
  · exact (last_sale_date_iso_or_empty [("DOS_1", Value.str "20060101")] none).2.1
      "20060101" (by decide) (by decide) (by simp [List.lookup])
  · exact (last_sale_date_iso_or_empty [] none).2.2.1 rfl

theorem densityConstraint_name (lot : ℚ) (params : NumericZoningParams) :
    ∀ c ∈ densityConstraint lot params, c.name = "density" := by
  intro c h
  unfold densityConstraint at h
  split at h <;> simp_all <;> split at h <;> simp_all

theorem minLotAreaConstraint_name (lot : ℚ) (params : NumericZoningParams) :
    ∀ c ∈ minLotAreaConstraint lot params, c.name = "min_lot_area" := by
  intro c h
  unfold minLotAreaConstraint at h
  split at h <;> simp_all <;> split at h <;> simp_all

theorem farConstraint_name (lot : ℚ) (params : NumericZoningParams) :
    ∀ c ∈ farConstraint lot params, c.name = "floor_area_ratio" := by
  intro c h
  unfold farConstraint at h
  split at h <;> simp_all <;> split at h <;> simp_all

theorem markAt_mem_fields (n : ℕ) (l : List ConstraintResult) (c' : ConstraintResult)
    (h : c' ∈ l) :
    ∃ c ∈ markAt n l, c.name = c'.name ∧ c.max_units = c'.max_units ∧
      c.raw_value = c'.raw_value := by
  rcases List.getElem_of_mem h with ⟨j, hj, rfl⟩
  have hj2 : j < (markAt n l).length := by simpa [markAt_length] using hj
  refine ⟨(markAt n l)[j], List.getElem_mem _, ?_⟩
  rw [markAt_getElem _ _ _ hj hj2]
  split <;> simp

theorem markAt_mem_units_rev (n : ℕ) (l : List ConstraintResult) (c : ConstraintResult)
    (h : c ∈ markAt n l) : ∃ c' ∈ l, c.max_units = c'.max_units := by
  rcases List.getElem_of_mem h with ⟨j, hj, rfl⟩
  have hj2 : j < l.length := by simpa [markAt_length] using hj
  refine ⟨l[j], List.getElem_mem _, ?_⟩
  rw [markAt_getElem _ _ _ hj2 hj]
  split <;> simp

theorem calc_buildable_area_some (w d : ℚ) (params : NumericZoningParams) :
    calc_buildable_area (some w) (some d) params =
      (if w ≤ 0 ∨ d ≤ 0 then (none, [])
       else if w - 2 * params.setback_side_ft.getD 0 ≤ 0 ∨
           d - params.setback_front_ft.getD 0 - params.setback_rear_ft.getD 0 ≤ 0 then
         (some 0,
           ["Setbacks (" ++ fmtNum (params.setback_front_ft.getD 0) ++ "' front, " ++
             fmtNum (params.setback_rear_ft.getD 0) ++ "' rear, " ++
             fmtNum (params.setback_side_ft.getD 0) ++
             "' each side) exceed lot dimensions (" ++
             fmtNum w ++ "' x " ++ fmtNum d ++ "')."])
       else (some ((w - 2 * params.setback_side_ft.getD 0) *
         (d - params.setback_front_ft.getD 0 - params.setback_rear_ft.getD 0)), [])) :=
  rfl

theorem envelopeStories_eq_max (params : NumericZoningParams) :
    envelopeStories params = max (params.max_stories.getD 1) 1 := by
  unfold envelopeStories
  cases params.max_stories with
  | none => simp
  | some s =>
    by_cases hs : s > 0
    · simp [hs, Option.getD]
      omega
    · simp [hs, Option.getD]
      omega

/-- C9. With both lot dimensions positive, the buildable-envelope constraint
uses buildable width `w - 2*side` and buildable depth `d - front - rear`;
if either is nonpositive the constraint is skipped (absent from the
constraint list) and the explanatory setback note is carried into the
analysis notes, and no constraint ever has fewer than 1 unit; otherwise,
when a positive minimum unit size is set, a `buildable_envelope` constraint
is present with `max(1, floor(buildableWidth * buildableDepth *
max(stories, 1) / minUnitSize))` units. For a 75x100 lot with 25/25/7.5 ft
setbacks, 2 stories and a 750 sqft minimum unit size, the analysis yields 8
units. -/
theorem buildable_envelope_spec (lot : ℚ) (params : NumericZoningParams) (w d : ℚ)
    (hl : 0 < lot) (hw : 0 < w) (hd : 0 < d) :
    ((w - 2 * params.setback_side_ft.getD 0 ≤ 0 ∨
      d - params.setback_front_ft.getD 0 - params.setback_rear_ft.getD 0 ≤ 0) →
      ("buildable_envelope" ∉
        (calculate_max_units lot params (some w) (some d)).constraints.map (fun c => c.name)) ∧
      (calc_buildable_area (some w) (some d) params).2 ≠ [] ∧
      (∀ n ∈ (calc_buildable_area (some w) (some d) params).2,
        n ∈ (calculate_max_units lot params (some w) (some d)).notes)) ∧
    (∀ c ∈ (calculate_max_units lot params (some w) (some d)).constraints,
      1 ≤ c.max_units) ∧
    (0 < w - 2 * params.setback_side_ft.getD 0 →
     0 < d - params.setback_front_ft.getD 0 - params.setback_rear_ft.getD 0 →
     ∀ mus : ℚ, params.min_unit_size_sqft = some mus → 0 < mus →
      ∃ c ∈ (calculate_max_units lot params (some w) (some d)).constraints,
        c.name = "buildable_envelope" ∧
        c.max_units = max 1 ⌊(w - 2 * params.setback_side_ft.getD 0) *
          (d - params.setback_front_ft.getD 0 - params.setback_rear_ft.getD 0) *
          (envelopeStories params : ℚ) / mus⌋ ∧
        envelopeStories params = max (params.max_stories.getD 1) 1) ∧
    ((calculate_max_units 7500
      { setback_front_ft := some 25, setback_rear_ft := some 25,
        setback_side_ft := some (15 / 2), max_stories := some 2,
        min_unit_size_sqft := some 750 } (some 75) (some 100)).max_units = 8) := by
  have hwd : ¬ (w ≤ 0 ∨ d ≤ 0) := by
    push_neg
    exact ⟨hw, hd⟩
  refine ⟨?_, ?_, ?_, ?_⟩
  · intro hneg
    have hba : calc_buildable_area (some w) (some d) params =
        (some 0,
          ["Setbacks (" ++ fmtNum (params.setback_front_ft.getD 0) ++ "' front, " ++
            fmtNum (params.setback_rear_ft.getD 0) ++ "' rear, " ++
            fmtNum (params.setback_side_ft.getD 0) ++ "' each side) exceed lot dimensions (" ++
            fmtNum w ++ "' x " ++ fmtNum d ++ "')."]) := by
      rw [calc_buildable_area_some]
      rw [if_neg hwd, if_pos hneg]
    have henv : envelopeConstraint (calc_buildable_area (some w) (some d) params).1 params
        = [] := by
      rw [hba]
      unfold envelopeConstraint
      cases params.min_unit_size_sqft with
      | none => rfl
      | some mus =>
        simp only
        rw [if_neg]
        intro hcon
        exact absurd hcon.1 (by norm_num)
    have hnames : "buildable_envelope" ∉
        (evalConstraints lot params (some w) (some d)).map (fun c => c.name) := by
      intro hmem
      rw [List.mem_map] at hmem
      rcases hmem with ⟨c, hc, hname⟩
      simp only [evalConstraints, List.mem_append] at hc
      rcases hc with ((h | h) | h) | h
      · rw [densityConstraint_name lot params c h] at hname
        exact absurd hname (by decide)
      · rw [minLotAreaConstraint_name lot params c h] at hname
        exact absurd hname (by decide)
      · rw [farConstraint_name lot params c h] at hname
        exact absurd hname (by decide)
      · rw [henv] at h
        simp at h
    refine ⟨?_, ?_, ?_⟩
    · cases hL : evalConstraints lot params (some w) (some d) with
      | nil =>
        rw [calculate_max_units_of_nil lot params (some w) (some d) hl hL]
        simp
      | cons c0 rest =>
        rw [calculate_max_units_of_cons lot params (some w) (some d) hl c0 rest hL]
        simp only
        rw [markAt_map_name]
        rw [hL] at hnames
        exact hnames
    · rw [hba]
      simp
    · intro n hn
      cases hL : evalConstraints lot params (some w) (some d) with
      | nil =>
        rw [calculate_max_units_of_nil lot params (some w) (some d) hl hL]
        simp only [List.mem_append]
        exact Or.inl hn
      | cons c0 rest =>
        rw [calculate_max_units_of_cons lot params (some w) (some d) hl c0 rest hL]
        exact hn
  · intro c hc
    cases hL : evalConstraints lot params (some w) (some d) with
    | nil =>
      rw [calculate_max_units_of_nil lot params (some w) (some d) hl hL] at hc
      simp at hc
    | cons c0 rest =>
      rw [calculate_max_units_of_cons lot params (some w) (some d) hl c0 rest hL] at hc
      simp only at hc
      rcases markAt_mem_units_rev _ _ _ hc with ⟨c', hc', heq⟩
      rw [heq]
      rw [← hL] at hc'
      exact evalConstraints_units_pos lot params (some w) (some d) c' hc'
  · intro hbw hbd mus hmus hmuspos
    have hba : calc_buildable_area (some w) (some d) params =
        (some ((w - 2 * params.setback_side_ft.getD 0) *
          (d - params.setback_front_ft.getD 0 - params.setback_rear_ft.getD 0)), []) := by
      rw [calc_buildable_area_some]
      rw [if_neg hwd, if_neg (by push_neg; exact ⟨hbw, hbd⟩)]
    have hprod : 0 < (w - 2 * params.setback_side_ft.getD 0) *
        (d - params.setback_front_ft.getD 0 - params.setback_rear_ft.getD 0) :=
      mul_pos hbw hbd
    have hmem : ∃ c ∈ evalConstraints lot params (some w) (some d),
        c.name = "buildable_envelope" ∧
        c.max_units = max 1 ⌊(w - 2 * params.setback_side_ft.getD 0) *
          (d - params.setback_front_ft.getD 0 - params.setback_rear_ft.getD 0) *
          (envelopeStories params : ℚ) / mus⌋ := by
      have henv : envelopeConstraint (calc_buildable_area (some w) (some d) params).1 params =
          [{ name := "buildable_envelope",
             max_units := max 1 ⌊(w - 2 * params.setback_side_ft.getD 0) *
               (d - params.setback_front_ft.getD 0 - params.setback_rear_ft.getD 0) *
               (envelopeStories params : ℚ) / mus⌋,
             raw_value := (w - 2 * params.setback_side_ft.getD 0) *
               (d - params.setback_front_ft.getD 0 - params.setback_rear_ft.getD 0) *
               (envelopeStories params : ℚ) / mus,
             formula := "(" ++ fmtFixed 0 ((w - 2 * params.setback_side_ft.getD 0) *
               (d - params.setback_front_ft.getD 0 - params.setback_rear_ft.getD 0)) ++
               " sqft buildable x " ++ toString (envelopeStories params) ++ " stories) / " ++
               fmtFixed 0 mus ++ " sqft/unit = " ++
               fmtFixed 2 ((w - 2 * params.setback_side_ft.getD 0) *
                 (d - params.setback_front_ft.getD 0 - params.setback_rear_ft.getD 0) *
                 (envelopeStories params : ℚ) / mus) }] := by
        rw [hba]
        unfold envelopeConstraint
        rw [hmus]
        simp only
        rw [if_pos ⟨hprod, hmuspos⟩]
      unfold evalConstraints
      exact ⟨_, List.mem_append_right _
        (by rw [henv]; exact List.mem_singleton_self _), rfl, rfl⟩
    rcases hmem with ⟨c', hc', hname', hunits'⟩
    cases hL : evalConstraints lot params (some w) (some d) with
    | nil => rw [hL] at hc'; simp at hc'
    | cons c0 rest =>
      rw [calculate_max_units_of_cons lot params (some w) (some d) hl c0 rest hL]
      simp only
      rw [hL] at hc'
      rcases markAt_mem_fields (firstMinIdx (c0 :: rest)) (c0 :: rest) c' hc' with
        ⟨c, hcmem, hname, hunits, _⟩
      exact ⟨c, hcmem, by rw [hname, hname'], by rw [hunits, hunits'],
        envelopeStories_eq_max params⟩
  · simp only [calculate_max_units, evalConstraints, densityConstraint, minLotAreaConstraint,
      farConstraint, envelopeConstraint, calc_buildable_area, envelopeStories,
      firstMinIdx, markAt]
    norm_num

/-- C9 witness: the theorem applied to the 75x100 lot with the repo's own
setback scenario (7.5 ft sides, 25 ft front and rear, 2 stories, 750 sqft
minimum unit size), which yields the 8-unit envelope constraint. -/
theorem buildable_envelope_spec_witness :
    ∃ c ∈ (calculate_max_units 7500
      { setback_front_ft := some 25, setback_rear_ft := some 25,
        setback_side_ft := some (15 / 2), max_stories := some 2,
        min_unit_size_sqft := some 750 } (some 75) (some 100)).constraints,
      c.name = "buildable_envelope" ∧ c.max_units = 8 := by
  rcases (buildable_envelope_spec 7500
      { setback_front_ft := some 25, setback_rear_ft := some 25,
        setback_side_ft := some (15 / 2), max_stories := some 2,
        min_unit_size_sqft := some 750 } 75 100 (by norm_num) (by norm_num)
      (by norm_num)).2.2.1 (by norm_num) (by norm_num) 750 rfl (by norm_num) with
    ⟨c, hc, hname, hunits, _⟩
  refine ⟨c, hc, hname, ?_⟩
  rw [hunits]
  norm_num [envelopeStories, Option.getD]

/-- C5. `_safe_filter` never raises (it is a total function by
construction): when any ' and '-separated clause fails to match the filter
pattern the whole record list is returned unchanged, and when the
expression parses, a record whose referenced field is missing is excluded
from the result rather than erroring. -/
theorem safe_filter_graceful (records : List AttrMap) (expression : String) :
    (parseFilters expression = none → safe_filter records expression = records) ∧
    (∀ fs, parseFilters expression = some fs →
      ∀ r ∈ records, (∃ t ∈ fs, r.lookup t.1 = none) →
        r ∉ safe_filter records expression) := by
  constructor
  · intro hp
    unfold safe_filter
    split
    · rfl
    · rw [hp]
  · intro fs hp r hr hmiss
    rcases hmiss with ⟨t, ht, hnone⟩
    have hclause : evalClause r t.1 t.2.1 t.2.2 = false := by
      unfold evalClause
      rw [hnone]
    have hrec : evalRecord r fs = false := by
      unfold evalRecord
      rw [List.all_eq_false]
      exact ⟨t, ht, by simp [hclause]⟩
    unfold safe_filter
    split
    · rename_i hcase
      rcases hcase with hexp | hrecs
      · rw [hexp] at hp
        have : parseFilters "" = none := rfl
        rw [this] at hp
        cases hp
      · rw [hrecs] at hr
        cases hr
    · rw [hp]
      intro hmem
      rcases List.mem_filter.mp hmem with ⟨_, hev⟩
      rw [hrec] at hev
      cases hev

/-- C5 witness: the theorem applied to the repo's own examples — the
unparseable expression `"invalid !!! garbage"` returns the list unchanged,
and with `"lot_size_sqft > 3000"` a record without the field is excluded. -/
theorem safe_filter_graceful_witness :
    safe_filter [[("a", Value.num 1)]] "invalid !!! garbage" = [[("a", Value.num 1)]] ∧
    ([("city", Value.str "MIAMI")] : AttrMap) ∉
      safe_filter [[("city", Value.str "MIAMI")]] "lot_size_sqft > 3000" := by
  constructor
  · exact (safe_filter_graceful [[("a", Value.num 1)]] "invalid !!! garbage").1 (by decide)
  · exact (safe_filter_graceful [[("city", Value.str "MIAMI")]] "lot_size_sqft > 3000").2
      [("lot_size_sqft", FilterOp.opGt, Value.num 3000)] (by decide)
      [("city", Value.str "MIAMI")] (by simp)
      ⟨("lot_size_sqft", FilterOp.opGt, Value.num 3000), by simp, by decide⟩

/-- C10. When a parsed clause orders incomparable types — a numeric filter
value against a string field value or vice versa, which raises `TypeError`
in Python — `_safe_filter` treats the clause as not matching: the record is
excluded, the call still returns the remaining matching records, and no
error escapes (the model is a total function). -/
theorem safe_filter_type_error_excluded (records : List AttrMap) (expression : String)
    (fs : List (String × FilterOp × Value)) (hp : parseFilters expression = some fs)
    (r : AttrMap) (hr : r ∈ records)
    (hbad : ∃ t ∈ fs, (t.2.1 = FilterOp.opGt ∨ t.2.1 = FilterOp.opLt ∨
      t.2.1 = FilterOp.opGe ∨ t.2.1 = FilterOp.opLe) ∧
      ((∃ a : ℚ, r.lookup t.1 = some (Value.num a) ∧ ∃ s : String, t.2.2 = Value.str s) ∨
       (∃ s : String, r.lookup t.1 = some (Value.str s) ∧ ∃ a : ℚ, t.2.2 = Value.num a))) :
    r ∉ safe_filter records expression ∧
    safe_filter records expression = records.filter (fun x => evalRecord x fs) := by
  rcases hbad with ⟨t, ht, hop, htypes⟩
  have hclause : evalClause r t.1 t.2.1 t.2.2 = false := by
    unfold evalClause
    rcases htypes with ⟨a, hlook, s, hv⟩ | ⟨s, hlook, a, hv⟩ <;>
      rw [hlook, hv] <;>
      rcases hop with h | h | h | h <;>
      rw [h] <;>
      rfl
  have hrec : evalRecord r fs = false := by
    unfold evalRecord
    rw [List.all_eq_false]
    exact ⟨t, ht, by simp [hclause]⟩
  have heq : safe_filter records expression = records.filter (fun x => evalRecord x fs) := by
    unfold safe_filter
    split
    · rename_i hcase
      rcases hcase with hexp | hrecs
      · rw [hexp] at hp
        have : parseFilters "" = none := rfl
        rw [this] at hp
        cases hp
      · rw [hrecs]
        rfl
    · rw [hp]
  refine ⟨?_, heq⟩
  rw [heq]
  intro hmem
  rcases List.mem_filter.mp hmem with ⟨_, hev⟩
  rw [hrec] at hev
  cases hev

/-- C10 witness: filtering `lot_size_sqft > 10000` over a record whose
`lot_size_sqft` is the string `"big"` excludes that record and returns the
filtered remainder normally. -/
theorem safe_filter_type_error_excluded_witness :
    ([("lot_size_sqft", Value.str "big")] : AttrMap) ∉
      safe_filter [[("lot_size_sqft", Value.str "big")]] "lot_size_sqft > 10000" ∧
    safe_filter [[("lot_size_sqft", Value.str "big")]] "lot_size_sqft > 10000" =
      List.filter (fun x => evalRecord x [("lot_size_sqft", FilterOp.opGt, Value.num 10000)])
        [[("lot_size_sqft", Value.str "big")]] :=
  safe_filter_type_error_excluded [[("lot_size_sqft", Value.str "big")]]
    "lot_size_sqft > 10000" [("lot_size_sqft", FilterOp.opGt, Value.num 10000)] (by decide)
    [("lot_size_sqft", Value.str "big")] (by simp)
    ⟨("lot_size_sqft", FilterOp.opGt, Value.num 10000), by simp,
      Or.inl rfl, Or.inr ⟨"big", by decide, 10000, rfl⟩⟩

theorem bulkLoopFuel_length_le (query : PageQuery) (fm : CountyFieldMap) (maxResults : ℤ) :
    ∀ (fuel : ℕ) (acc : List NormalizedRecord) (offset : ℕ),
      (bulkLoopFuel query fm maxResults fuel acc offset).length ≤
        max acc.length maxResults.toNat := by
  intro fuel
  induction fuel with
  | zero =>
    intro acc off
    simp [bulkLoopFuel]
  | succ f ih =>
    intro acc off
    unfold bulkLoopFuel
    split
    · rename_i hlt
      split
      · exact Nat.le_max_left _ _
      · exact Nat.le_max_left _ _
      · rename_i f0 frest _
        set newAcc := acc ++
          ((f0 :: frest).take (maxResults - acc.length).toNat).map
            (fun f => normalize_record f.attributes f.geometry fm) with hnew
        have hlen : newAcc.length = acc.length +
            min (maxResults - acc.length).toNat (frest.length + 1) := by
          simp [hnew, List.length_take]
        have hbound : newAcc.length ≤ maxResults.toNat := by omega
        split
        · omega
        · split
          · omega
          · have := ih newAcc (off + (f0 :: frest).length)
            omega
    · exact Nat.le_max_left _ _

/-- C4. Bulk pagination respects its cap, end-of-data and partial-result
contracts: (1) a successful `bulk_property_search` returns at most
`min(params.max_results, 2000)` normalized records no matter what the page
query serves; (2) while below the cap, a page query that raises ends the
loop with exactly the records accumulated from earlier pages — the error is
not propagated; (3) a page shorter than the requested batch ends the loop
with the accumulated records plus that page (end of data), issuing no
further query. -/
theorem bulk_search_pagination_spec :
    (∀ (params : PropertySearchParams) (query : PageQuery) (res : List NormalizedRecord),
      bulk_property_search params query = .ok res →
      res.length ≤ (min params.max_results 2000).toNat) ∧
    (∀ (query : PageQuery) (fm : CountyFieldMap) (maxResults : ℤ)
       (acc : List NormalizedRecord) (offset : ℕ) (e : String),
      (acc.length : ℤ) < maxResults →
      query offset (min 1000 (maxResults - acc.length)) = .error e →
      bulkLoop query fm maxResults acc offset = acc) ∧
    (∀ (query : PageQuery) (fm : CountyFieldMap) (maxResults : ℤ)
       (acc : List NormalizedRecord) (offset : ℕ) (f0 : Feature) (frest : List Feature),
      (acc.length : ℤ) < maxResults →
      query offset (min 1000 (maxResults - acc.length)) = .ok (f0 :: frest) →
      ((f0 :: frest).length : ℤ) < min 1000 (maxResults - acc.length) →
      bulkLoop query fm maxResults acc offset =
        acc ++ ((f0 :: frest).take (maxResults - acc.length).toNat).map
          (fun f => normalize_record f.attributes f.geometry fm)) := by
  have hfuel : ∀ (maxResults : ℤ) (acc : List NormalizedRecord),
      (acc.length : ℤ) < maxResults →
      ∃ f, (maxResults - acc.length).toNat = f + 1 := by
    intro maxResults acc h
    refine ⟨(maxResults - acc.length).toNat - 1, ?_⟩
    omega
  refine ⟨?_, ?_, ?_⟩
  · intro params query res h
    unfold bulk_property_search at h
    cases hb : build_where_clause params with
    | error e => rw [hb] at h; cases h
    | ok p =>
      rw [hb] at h
      have hres : res = bulkLoop query p.2 (min params.max_results 2000) [] 0 := by
        cases h
        rfl
      rw [hres]
      unfold bulkLoop
      have := bulkLoopFuel_length_le query p.2 (min params.max_results 2000)
        ((min params.max_results 2000 - ([] : List NormalizedRecord).length).toNat) [] 0
      simpa using this
  · intro query fm maxResults acc offset e hlt herr
    rcases hfuel maxResults acc hlt with ⟨f, hf⟩
    have hstep : bulkLoop query fm maxResults acc offset =
        bulkLoopFuel query fm maxResults (f + 1) acc offset := by
      unfold bulkLoop
      rw [hf]
    rw [hstep]
    unfold bulkLoopFuel
    rw [if_pos hlt, herr]
  · intro query fm maxResults acc offset f0 frest hlt hq hshort
    rcases hfuel maxResults acc hlt with ⟨f, hf⟩
    have hstep : bulkLoop query fm maxResults acc offset =
        bulkLoopFuel query fm maxResults (f + 1) acc offset := by
      unfold bulkLoop
      rw [hf]
    rw [hstep]
    unfold bulkLoopFuel
    rw [if_pos hlt, hq]
    show (if ((acc ++ ((f0 :: frest).take (maxResults - acc.length).toNat).map
          (fun f => normalize_record f.attributes f.geometry fm)).length : ℤ) ≥ maxResults then
        acc ++ ((f0 :: frest).take (maxResults - acc.length).toNat).map
          (fun f => normalize_record f.attributes f.geometry fm)
      else if ((f0 :: frest).length : ℤ) < min 1000 (maxResults - acc.length) then
        acc ++ ((f0 :: frest).take (maxResults - acc.length).toNat).map
          (fun f => normalize_record f.attributes f.geometry fm)
      else bulkLoopFuel query fm maxResults f
        (acc ++ ((f0 :: frest).take (maxResults - acc.length).toNat).map
          (fun f => normalize_record f.attributes f.geometry fm))
        (offset + (f0 :: frest).length)) =
      acc ++ ((f0 :: frest).take (maxResults - acc.length).toNat).map
        (fun f => normalize_record f.attributes f.geometry fm)
    rw [if_pos hshort]
    split <;> rfl

/-- C4 witness: the three parts applied concretely — a first-page failure
yields an empty successful result through `bulk_property_search`; the loop
keeps an already-accumulated page when the next query raises; and a
one-feature short page ends the loop with that page normalized. -/
theorem bulk_search_pagination_spec_witness :
    ((∀ res, bulk_property_search { county := "Miami-Dade" } (fun _ _ => .error "API down") =
        .ok res → res.length ≤ (min (500 : ℤ) 2000).toNat) ∧
     bulkLoop (fun _ _ => .error "API down") MDC_FIELDS 500 [] 0 = [] ∧
     bulkLoop (fun off _ => if off = 0 then .ok [⟨[], none⟩] else .error "down")
        MDC_FIELDS 500 [] 0 =
      [] ++ (([⟨[], none⟩] : List Feature).take (((500 : ℤ) - ([] : List NormalizedRecord).length)).toNat).map
        (fun f => normalize_record f.attributes f.geometry MDC_FIELDS)) := by
  refine ⟨?_, ?_, ?_⟩
  · intro res h
    have := bulk_search_pagination_spec.1 { county := "Miami-Dade" }
      (fun _ _ => .error "API down") res h
    simpa using this
  · exact bulk_search_pagination_spec.2.1 (fun _ _ => .error "API down") MDC_FIELDS 500 [] 0
      "API down" (by norm_num) rfl
  · have := bulk_search_pagination_spec.2.2
      (fun off _ => if off = 0 then .ok [⟨[], none⟩] else .error "down")
      MDC_FIELDS 500 [] 0 ⟨[], none⟩ [] (by norm_num) (by norm_num) (by norm_num)
    simpa using this

theorem hybrid_rrf_eq (table : List Chunk) (municipality zone_code : String) (limit : ℕ) :
    hybrid_rrf table municipality zone_code limit =
      (((fusedIds (vectorResults table municipality (limit * 3))
          (keywordResults table municipality zone_code (limit * 3))).map
        (fun i => (i, rrfScore (vectorResults table municipality (limit * 3))
          (keywordResults table municipality zone_code (limit * 3)) i))).insertionSort
        (fun a b => b.2 ≤ a.2)).take limit :=
  rfl

/-- C3. In fused mode every returned row's score is the RRF sum
`1/(60 + vectorRank) + 1/(60 + lexicalRank)` over the two top-`limit*3`
pools, a branch missing the candidate contributing 0; the result is the
top `limit` of the union of both pools sorted descending by fused score
(sorted, of the right length, and no excluded candidate outscores a
returned one). A candidate ranked 1st in both branches scores
`1/61 + 1/61`; one absent from the vector pool and ranked 1st lexically
scores exactly `1/61`. -/
theorem hybrid_rrf_fusion_spec (table : List Chunk) (municipality zone_code : String)
    (limit : ℕ) :
    (∀ p ∈ hybrid_rrf table municipality zone_code limit,
      p.2 = rrfScore (vectorResults table municipality (limit * 3))
          (keywordResults table municipality zone_code (limit * 3)) p.1 ∧
      p.1 ∈ fusedIds (vectorResults table municipality (limit * 3))
          (keywordResults table municipality zone_code (limit * 3))) ∧
    (hybrid_rrf table municipality zone_code limit).Pairwise (fun a b => b.2 ≤ a.2) ∧
    (hybrid_rrf table municipality zone_code limit).length =
      min limit (fusedIds (vectorResults table municipality (limit * 3))
        (keywordResults table municipality zone_code (limit * 3))).length ∧
    (∀ p ∈ hybrid_rrf table municipality zone_code limit,
      ∀ i ∈ fusedIds (vectorResults table municipality (limit * 3))
          (keywordResults table municipality zone_code (limit * 3)),
        (i, rrfScore (vectorResults table municipality (limit * 3))
          (keywordResults table municipality zone_code (limit * 3)) i) ∉
            hybrid_rrf table municipality zone_code limit →
        rrfScore (vectorResults table municipality (limit * 3))
          (keywordResults table municipality zone_code (limit * 3)) i ≤ p.2) ∧
    (∀ (v k : List Chunk) (i : ℕ), rankIn v i = some 1 → rankIn k i = some 1 →
      rrfScore v k i = 1 / 61 + 1 / 61) ∧
    (∀ (v k : List Chunk) (i : ℕ), rankIn v i = none → rankIn k i = some 1 →
      rrfScore v k i = 1 / 61) := by
  have hsorted := List.sorted_insertionSort (r := fun (a b : ℕ × ℚ) => b.2 ≤ a.2)
    ((fusedIds (vectorResults table municipality (limit * 3))
        (keywordResults table municipality zone_code (limit * 3))).map
      (fun i => (i, rrfScore (vectorResults table municipality (limit * 3))
        (keywordResults table municipality zone_code (limit * 3)) i)))
  have hperm := List.perm_insertionSort (r := fun (a b : ℕ × ℚ) => b.2 ≤ a.2)
    ((fusedIds (vectorResults table municipality (limit * 3))
        (keywordResults table municipality zone_code (limit * 3))).map
      (fun i => (i, rrfScore (vectorResults table municipality (limit * 3))
        (keywordResults table municipality zone_code (limit * 3)) i)))
  refine ⟨?_, ?_, ?_, ?_, ?_, ?_⟩
  · intro p hp
    rw [hybrid_rrf_eq] at hp
    have hp2 := hperm.mem_iff.mp (List.mem_of_mem_take hp)
    rcases List.mem_map.mp hp2 with ⟨i, hi, hpi⟩
    rw [← hpi]
    exact ⟨rfl, hi⟩
  · rw [hybrid_rrf_eq]
    exact hsorted.sublist (List.take_sublist _ _)
  · rw [hybrid_rrf_eq]
    simp [List.length_take, List.length_insertionSort]
  · intro p hp i hi hnot
    rw [hybrid_rrf_eq] at hp hnot
    have hmemS : (i, rrfScore (vectorResults table municipality (limit * 3))
        (keywordResults table municipality zone_code (limit * 3)) i) ∈
        ((fusedIds (vectorResults table municipality (limit * 3))
            (keywordResults table municipality zone_code (limit * 3))).map
          (fun j => (j, rrfScore (vectorResults table municipality (limit * 3))
            (keywordResults table municipality zone_code (limit * 3)) j))).insertionSort
          (fun a b => b.2 ≤ a.2) := by
      rw [hperm.mem_iff]
      exact List.mem_map.mpr ⟨i, hi, rfl⟩
    rw [← List.take_append_drop limit (((fusedIds (vectorResults table municipality (limit * 3))
        (keywordResults table municipality zone_code (limit * 3))).map
      (fun j => (j, rrfScore (vectorResults table municipality (limit * 3))
        (keywordResults table municipality zone_code (limit * 3)) j))).insertionSort
      (fun a b => b.2 ≤ a.2))] at hsorted hmemS
    rcases List.mem_append.mp hmemS with hintake | hindrop
    · exact absurd hintake hnot
    · exact (List.pairwise_append.mp hsorted).2.2 p hp _ hindrop
  · intro v k i hv hk
    unfold rrfScore
    rw [hv, hk]
    norm_num [RRF_K]
  · intro v k i hv hk
    unfold rrfScore
    rw [hv, hk]
    norm_num [RRF_K]

/-- C3 witness: the theorem applied to a one-row store (the row carries an
embedding and matches the text query), where the single candidate is the
returned row; and the two score instances at concrete one-row pools. -/
theorem hybrid_rrf_fusion_spec_witness :
    ((1, rrfScore (vectorResults [⟨1, "Miami", true, 0, 1, true, []⟩] "Miami" 3)
        (keywordResults [⟨1, "Miami", true, 0, 1, true, []⟩] "Miami" "R-1" 3) 1).2 =
      rrfScore (vectorResults [⟨1, "Miami", true, 0, 1, true, []⟩] "Miami" 3)
        (keywordResults [⟨1, "Miami", true, 0, 1, true, []⟩] "Miami" "R-1" 3) 1) ∧
    rrfScore [⟨1, "Miami", true, 0, 1, true, []⟩] [⟨1, "Miami", true, 0, 1, true, []⟩] 1 =
      1 / 61 + 1 / 61 ∧
    rrfScore [] [⟨1, "Miami", true, 0, 1, true, []⟩] 1 = 1 / 61 := by
  have hres : hybrid_rrf [⟨1, "Miami", true, 0, 1, true, []⟩] "Miami" "R-1" 1 =
      [(1, rrfScore (vectorResults [⟨1, "Miami", true, 0, 1, true, []⟩] "Miami" 3)
        (keywordResults [⟨1, "Miami", true, 0, 1, true, []⟩] "Miami" "R-1" 3) 1)] := rfl
  have hp : (1, rrfScore (vectorResults [⟨1, "Miami", true, 0, 1, true, []⟩] "Miami" 3)
      (keywordResults [⟨1, "Miami", true, 0, 1, true, []⟩] "Miami" "R-1" 3) 1) ∈
      hybrid_rrf [⟨1, "Miami", true, 0, 1, true, []⟩] "Miami" "R-1" 1 := by
    rw [hres]
    exact List.mem_singleton_self _
  refine ⟨?_, ?_, ?_⟩
  · exact ((hybrid_rrf_fusion_spec [⟨1, "Miami", true, 0, 1, true, []⟩] "Miami" "R-1" 1).1
      _ hp).1
  · exact (hybrid_rrf_fusion_spec [⟨1, "Miami", true, 0, 1, true, []⟩] "Miami" "R-1" 1).2.2.2.2.1
      [⟨1, "Miami", true, 0, 1, true, []⟩] [⟨1, "Miami", true, 0, 1, true, []⟩] 1
      (by decide) (by decide)
  · exact (hybrid_rrf_fusion_spec [⟨1, "Miami", true, 0, 1, true, []⟩] "Miami" "R-1" 1).2.2.2.2.2
      [] [⟨1, "Miami", true, 0, 1, true, []⟩] 1 rfl (by decide)

end Plotlot
